import Mathlib

/-!
Verification of the VEX IQ simulator core (`src/client/src`) against its
natural-language specification.

The development shallowly embeds the C/C++ sources:

* `src/client/src/physics/obb.cpp` — vectors, 3x3 matrices, oriented bounding
  boxes, the SAT intersection test (embedded generically over a linear ordered
  field `K`; the C code computes with 32-bit floats, idealised here as exact
  field arithmetic).
* `src/client/src/render/mpd_loader.cpp` — recursive hierarchy flattening.
* `src/client/src/physics/drivetrain.cpp` — force-based tank-drive integrator
  (over `ℝ`, since it uses `cosf`/`sinf`).
* `src/client/src/main.cpp` — collision response and the per-frame loop.
* `src/client/src/physics/robotdef.cpp` — robot definition loader.

Each claim theorem is stated over these embedded definitions.
-/

namespace VexSim

/-! ## Math primitives (`src/client/src/math/vec3.h`, `src/client/src/physics/obb.cpp`) -/

/-- 3-component vector, `struct Vec3 { float x, y, z; }` (vec3.h). -/
@[ext]
structure Vec3 (K : Type) where
  x : K
  y : K
  z : K
  deriving DecidableEq, Repr

/-- Row-major 3x3 matrix, `float rotation[9]` in obb.h / mpd_loader.cpp.
Field `mI` is entry `rotation[I]` of the C array. -/
@[ext]
structure Mat3 (K : Type) where
  m0 : K
  m1 : K
  m2 : K
  m3 : K
  m4 : K
  m5 : K
  m6 : K
  m7 : K
  m8 : K
  deriving DecidableEq, Repr

variable {K : Type} [LinearOrderedField K]

instance : Inhabited (Vec3 K) := ⟨⟨0, 0, 0⟩⟩

/-- `vec3_add` (vec3.h). -/
def vec3_add (a b : Vec3 K) : Vec3 K := ⟨a.x + b.x, a.y + b.y, a.z + b.z⟩

/-- `vec3_sub` (vec3.h). -/
def vec3_sub (a b : Vec3 K) : Vec3 K := ⟨a.x - b.x, a.y - b.y, a.z - b.z⟩

/-- `vec3_scale` (vec3.h). -/
def vec3_scale (v : Vec3 K) (s : K) : Vec3 K := ⟨v.x * s, v.y * s, v.z * s⟩

/-- `vec3_negate` (vec3.h). -/
def vec3_negate (v : Vec3 K) : Vec3 K := ⟨-v.x, -v.y, -v.z⟩

/-- `vec3_dot` (vec3.h). -/
def vec3_dot (a b : Vec3 K) : K := a.x * b.x + a.y * b.y + a.z * b.z

/-- `vec3_cross` (vec3.h). -/
def vec3_cross (a b : Vec3 K) : Vec3 K :=
  ⟨a.y * b.z - a.z * b.y, a.z * b.x - a.x * b.z, a.x * b.y - a.y * b.x⟩

/-- `mat3_multiply` (obb.cpp lines 23-33): row-major product `out = a * b`. -/
def mat3_multiply (a b : Mat3 K) : Mat3 K where
  m0 := a.m0 * b.m0 + a.m1 * b.m3 + a.m2 * b.m6
  m1 := a.m0 * b.m1 + a.m1 * b.m4 + a.m2 * b.m7
  m2 := a.m0 * b.m2 + a.m1 * b.m5 + a.m2 * b.m8
  m3 := a.m3 * b.m0 + a.m4 * b.m3 + a.m5 * b.m6
  m4 := a.m3 * b.m1 + a.m4 * b.m4 + a.m5 * b.m7
  m5 := a.m3 * b.m2 + a.m4 * b.m5 + a.m5 * b.m8
  m6 := a.m6 * b.m0 + a.m7 * b.m3 + a.m8 * b.m6
  m7 := a.m6 * b.m1 + a.m7 * b.m4 + a.m8 * b.m7
  m8 := a.m6 * b.m2 + a.m7 * b.m5 + a.m8 * b.m8

/-- `mat3_transform_point` (obb.cpp lines 48-53): `v' = R·v` for row-major `R`. -/
def mat3_transform_point (rot : Mat3 K) (v : Vec3 K) : Vec3 K where
  x := rot.m0 * v.x + rot.m1 * v.y + rot.m2 * v.z
  y := rot.m3 * v.x + rot.m4 * v.y + rot.m5 * v.z
  z := rot.m6 * v.x + rot.m7 * v.y + rot.m8 * v.z

/-- The identity matrix (`{1,0,0, 0,1,0, 0,0,1}` as written out at several
places in the sources). -/
def mat3_id : Mat3 K := ⟨1, 0, 0, 0, 1, 0, 0, 0, 1⟩

/-- Transpose of a row-major 3x3 matrix (used to state orthonormality). -/
def mat3_transpose (m : Mat3 K) : Mat3 K :=
  ⟨m.m0, m.m3, m.m6, m.m1, m.m4, m.m7, m.m2, m.m5, m.m8⟩

/-- Determinant of a 3x3 matrix. -/
def mat3_det (m : Mat3 K) : K :=
  m.m0 * (m.m4 * m.m8 - m.m5 * m.m7)
    - m.m1 * (m.m3 * m.m8 - m.m5 * m.m6)
    + m.m2 * (m.m3 * m.m7 - m.m4 * m.m6)

/-- Column 0 of a row-major matrix: the C code reads OBB axis `ax`/`bx` as
`{rot[0], rot[3], rot[6]}` (obb.cpp lines 111-118). -/
def colX (m : Mat3 K) : Vec3 K := ⟨m.m0, m.m3, m.m6⟩

/-- Column 1: `{rot[1], rot[4], rot[7]}`. -/
def colY (m : Mat3 K) : Vec3 K := ⟨m.m1, m.m4, m.m7⟩

/-- Column 2: `{rot[2], rot[5], rot[8]}`. -/
def colZ (m : Mat3 K) : Vec3 K := ⟨m.m2, m.m5, m.m8⟩

/-- A rotation matrix in the sense the OBB contract assumes: orthonormal
(`Rᵀ·R = R·Rᵀ = I`). The simulator only ever stores genuine rotations in
`OBB.rotation` (identity, axis rotations and their products). -/
def IsRotation (m : Mat3 K) : Prop :=
  mat3_multiply (mat3_transpose m) m = mat3_id ∧
    mat3_multiply m (mat3_transpose m) = mat3_id

instance (m : Mat3 K) : Decidable (IsRotation m) := by
  unfold IsRotation
  infer_instance

/-! ## OBB kernel (`src/client/src/physics/obb.cpp`) -/

/-- `OBB` (obb.h lines 20-24). -/
@[ext]
structure OBB (K : Type) where
  center : Vec3 K
  half_extents : Vec3 K
  rotation : Mat3 K
  deriving DecidableEq, Repr

/-- `AABB` (obb.h lines 27-30). -/
@[ext]
structure AABB (K : Type) where
  min : Vec3 K
  max : Vec3 K
  deriving DecidableEq, Repr

/-- `obb_transform_matrix` (obb.cpp lines 82-96): world center is
`world_pos + R·center`, half extents are unchanged, rotation composes as
`R_world * R_local`. -/
def obb_transform_matrix (local_obb : OBB K) (world_pos : Vec3 K) (rot : Mat3 K) : OBB K where
  center := vec3_add world_pos (mat3_transform_point rot local_obb.center)
  half_extents := local_obb.half_extents
  rotation := mat3_multiply rot local_obb.rotation

/-- `EPSILON` in `obb_intersects_obb` (obb.cpp line 137). -/
def SAT_EPSILON : K := 1 / 1000000

/-- `obb_intersects_obb` (obb.cpp lines 102-222), Separating Axis Theorem over
15 axes.  The C function returns `false` as soon as one of the 15 separation
tests fires and `true` otherwise; that early-exit chain is embedded as the
conjunction of the 15 negated tests, listed in source order (the chain's value
does not depend on evaluation order).  `R[i][j]` is `dot(col_i a, col_j b)`
and `AbsR[i][j] = |R[i][j]| + EPSILON` exactly as in the source. -/
def obb_intersects_obb (a b : OBB K) : Prop :=
  let t := vec3_sub b.center a.center
  let ax := colX a.rotation
  let ay := colY a.rotation
  let az := colZ a.rotation
  let bx := colX b.rotation
  let by_ := colY b.rotation
  let bz := colZ b.rotation
  let R00 := vec3_dot ax bx
  let R01 := vec3_dot ax by_
  let R02 := vec3_dot ax bz
  let R10 := vec3_dot ay bx
  let R11 := vec3_dot ay by_
  let R12 := vec3_dot ay bz
  let R20 := vec3_dot az bx
  let R21 := vec3_dot az by_
  let R22 := vec3_dot az bz
  let A00 := |R00| + SAT_EPSILON
  let A01 := |R01| + SAT_EPSILON
  let A02 := |R02| + SAT_EPSILON
  let A10 := |R10| + SAT_EPSILON
  let A11 := |R11| + SAT_EPSILON
  let A12 := |R12| + SAT_EPSILON
  let A20 := |R20| + SAT_EPSILON
  let A21 := |R21| + SAT_EPSILON
  let A22 := |R22| + SAT_EPSILON
  let ta0 := vec3_dot t ax
  let ta1 := vec3_dot t ay
  let ta2 := vec3_dot t az
  let tb0 := vec3_dot t bx
  let tb1 := vec3_dot t by_
  let tb2 := vec3_dot t bz
  let ae0 := a.half_extents.x
  let ae1 := a.half_extents.y
  let ae2 := a.half_extents.z
  let be0 := b.half_extents.x
  let be1 := b.half_extents.y
  let be2 := b.half_extents.z
  -- Test axes L = A0, A1, A2
  ¬(|ta0| > ae0 + (be0 * A00 + be1 * A01 + be2 * A02)) ∧
  ¬(|ta1| > ae1 + (be0 * A10 + be1 * A11 + be2 * A12)) ∧
  ¬(|ta2| > ae2 + (be0 * A20 + be1 * A21 + be2 * A22)) ∧
  -- Test axes L = B0, B1, B2
  ¬(|tb0| > (ae0 * A00 + ae1 * A10 + ae2 * A20) + be0) ∧
  ¬(|tb1| > (ae0 * A01 + ae1 * A11 + ae2 * A21) + be1) ∧
  ¬(|tb2| > (ae0 * A02 + ae1 * A12 + ae2 * A22) + be2) ∧
  -- L = A0 x B0
  ¬(|ta2 * R10 - ta1 * R20| > (ae1 * A20 + ae2 * A10) + (be1 * A02 + be2 * A01)) ∧
  -- L = A0 x B1
  ¬(|ta2 * R11 - ta1 * R21| > (ae1 * A21 + ae2 * A11) + (be0 * A02 + be2 * A00)) ∧
  -- L = A0 x B2
  ¬(|ta2 * R12 - ta1 * R22| > (ae1 * A22 + ae2 * A12) + (be0 * A01 + be1 * A00)) ∧
  -- L = A1 x B0
  ¬(|ta0 * R20 - ta2 * R00| > (ae0 * A20 + ae2 * A00) + (be1 * A12 + be2 * A11)) ∧
  -- L = A1 x B1
  ¬(|ta0 * R21 - ta2 * R01| > (ae0 * A21 + ae2 * A01) + (be0 * A12 + be2 * A10)) ∧
  -- L = A1 x B2
  ¬(|ta0 * R22 - ta2 * R02| > (ae0 * A22 + ae2 * A02) + (be0 * A11 + be1 * A10)) ∧
  -- L = A2 x B0
  ¬(|ta1 * R00 - ta0 * R10| > (ae0 * A10 + ae1 * A00) + (be1 * A22 + be2 * A21)) ∧
  -- L = A2 x B1
  ¬(|ta1 * R01 - ta0 * R11| > (ae0 * A11 + ae1 * A01) + (be0 * A22 + be2 * A20)) ∧
  -- L = A2 x B2
  ¬(|ta1 * R02 - ta0 * R12| > (ae0 * A12 + ae1 * A02) + (be0 * A21 + be1 * A20))

instance (a b : OBB K) : Decidable (obb_intersects_obb a b) := by
  unfold obb_intersects_obb
  infer_instance

/-- `obb_intersects_aabb` (obb.cpp lines 228-243): promote the AABB to an
identity-rotated OBB and reuse the SAT test. -/
def obb_intersects_aabb (obb : OBB K) (aabb : AABB K) : Prop :=
  obb_intersects_obb obb
    { center := ⟨(aabb.min.x + aabb.max.x) * (1/2), (aabb.min.y + aabb.max.y) * (1/2),
                 (aabb.min.z + aabb.max.z) * (1/2)⟩
      half_extents := ⟨(aabb.max.x - aabb.min.x) * (1/2), (aabb.max.y - aabb.min.y) * (1/2),
                       (aabb.max.z - aabb.min.z) * (1/2)⟩
      rotation := mat3_id }

instance (a : OBB K) (b : AABB K) : Decidable (obb_intersects_aabb a b) := by
  unfold obb_intersects_aabb
  infer_instance

/-- `obb_get_corners` (obb.cpp lines 308-333): the 8 world-space corners. -/
def obb_get_corners (obb : OBB K) : List (Vec3 K) :=
  [⟨-obb.half_extents.x, -obb.half_extents.y, -obb.half_extents.z⟩,
   ⟨ obb.half_extents.x, -obb.half_extents.y, -obb.half_extents.z⟩,
   ⟨ obb.half_extents.x,  obb.half_extents.y, -obb.half_extents.z⟩,
   ⟨-obb.half_extents.x,  obb.half_extents.y, -obb.half_extents.z⟩,
   ⟨-obb.half_extents.x, -obb.half_extents.y,  obb.half_extents.z⟩,
   ⟨ obb.half_extents.x, -obb.half_extents.y,  obb.half_extents.z⟩,
   ⟨ obb.half_extents.x,  obb.half_extents.y,  obb.half_extents.z⟩,
   ⟨-obb.half_extents.x,  obb.half_extents.y,  obb.half_extents.z⟩].map
    (fun c => vec3_add obb.center (mat3_transform_point obb.rotation c))

/-- `obb_get_enclosing_aabb` (obb.cpp lines 291-306): start from corner 0 and
fold component-wise min/max over the remaining corners. -/
def obb_get_enclosing_aabb (obb : OBB K) : AABB K :=
  let corners := obb_get_corners obb
  let c0 := corners.headI
  corners.tail.foldl
    (fun acc c =>
      { min := ⟨min acc.min.x c.x, min acc.min.y c.y, min acc.min.z c.z⟩
        max := ⟨max acc.max.x c.x, max acc.max.y c.y, max acc.max.z c.z⟩ })
    { min := c0, max := c0 }

/-! ### Claim C6: OBB transform composition -/

/-- **C6.** For every OBB and every pair of transforms, transforming by
`(T₁,R₁)` then `(T₂,R₂)` equals a single transform by `(T₂ + R₂·T₁, R₂·R₁)`;
and each single transform maps `{center, half_extents, R}` to
`{R_world·center + T_world, half_extents, R_world·R}` with half-extents
unchanged. -/
theorem obb_transform_matrix_comp (o : OBB ℚ) (T1 T2 : Vec3 ℚ) (R1 R2 : Mat3 ℚ) :
    obb_transform_matrix (obb_transform_matrix o T1 R1) T2 R2 =
      obb_transform_matrix o (vec3_add T2 (mat3_transform_point R2 T1))
        (mat3_multiply R2 R1) ∧
    (∀ (T : Vec3 ℚ) (R : Mat3 ℚ),
      obb_transform_matrix o T R =
        { center := vec3_add (mat3_transform_point R o.center) T
          half_extents := o.half_extents
          rotation := mat3_multiply R o.rotation }) := by
  constructor
  · ext <;>
      simp only [obb_transform_matrix, vec3_add, mat3_transform_point, mat3_multiply] <;>
      ring
  · intro T R
    ext <;>
      simp only [obb_transform_matrix, vec3_add, mat3_transform_point, mat3_multiply] <;>
      ring

/-! ### Toward Claim C7: symmetry of the SAT test

The 15 separation tests of `obb_intersects_obb a b` match the 15 tests of
`obb_intersects_obb b a` pairwise: face tests swap roles directly, and the
nine cross-axis tests agree because, for orthonormal rotations, both sides'
projected distances equal `|t · (A_u × B_v)|`.  The lemmas below develop
exactly that. -/

theorem vec3_dot_comm (u v : Vec3 K) : vec3_dot u v = vec3_dot v u := by
  simp only [vec3_dot]; ring

theorem vec3_dot_neg_left (u v : Vec3 K) : vec3_dot (vec3_negate u) v = -vec3_dot u v := by
  simp only [vec3_dot, vec3_negate]; ring

/-- Scalar triple-product swap: `(x × t)·y = -((y × t)·x)`; a pure ring fact. -/
theorem vec3_dot_cross_swap (x t y : Vec3 K) :
    vec3_dot (vec3_cross x t) y = -vec3_dot (vec3_cross y t) x := by
  simp only [vec3_dot, vec3_cross]; ring

theorem vec3_cross_neg_right (x t : Vec3 K) :
    vec3_cross x (vec3_negate t) = vec3_negate (vec3_cross x t) := by
  simp only [vec3_cross, vec3_negate]; ring_nf

theorem vec3_cross_scale_left (v : Vec3 K) (s : K) (t : Vec3 K) :
    vec3_cross (vec3_scale v s) t = vec3_scale (vec3_cross v t) s := by
  simp only [vec3_cross, vec3_scale]; ring_nf

theorem vec3_dot_scale_left (v : Vec3 K) (s : K) (w : Vec3 K) :
    vec3_dot (vec3_scale v s) w = s * vec3_dot v w := by
  simp only [vec3_dot, vec3_scale]; ring

/-- Lagrange's identity for the cross product; a pure ring fact. -/
theorem vec3_cross_self_dot (u v : Vec3 K) :
    vec3_dot (vec3_cross u v) (vec3_cross u v) =
      vec3_dot u u * vec3_dot v v - vec3_dot u v * vec3_dot u v := by
  simp only [vec3_dot, vec3_cross]; ring

section RotationFacts

variable (m : Mat3 K)

/-- Entry equations of `m · mᵀ = I` (row orthonormality). -/
theorem rot_row_eqs (h : mat3_multiply m (mat3_transpose m) = mat3_id) :
    (m.m0 * m.m0 + m.m1 * m.m1 + m.m2 * m.m2 = 1) ∧
    (m.m0 * m.m3 + m.m1 * m.m4 + m.m2 * m.m5 = 0) ∧
    (m.m0 * m.m6 + m.m1 * m.m7 + m.m2 * m.m8 = 0) ∧
    (m.m3 * m.m3 + m.m4 * m.m4 + m.m5 * m.m5 = 1) ∧
    (m.m3 * m.m6 + m.m4 * m.m7 + m.m5 * m.m8 = 0) ∧
    (m.m6 * m.m6 + m.m7 * m.m7 + m.m8 * m.m8 = 1) := by
  have h0 := congrArg Mat3.m0 h
  have h1 := congrArg Mat3.m1 h
  have h2 := congrArg Mat3.m2 h
  have h4 := congrArg Mat3.m4 h
  have h5 := congrArg Mat3.m5 h
  have h8 := congrArg Mat3.m8 h
  simp only [mat3_multiply, mat3_transpose, mat3_id] at h0 h1 h2 h4 h5 h8
  exact ⟨h0, h1, h2, h4, h5, h8⟩

/-- Entry equations of `mᵀ · m = I` (column orthonormality, as dot products of
the columns the SAT test reads). -/
theorem rot_col_eqs (h : mat3_multiply (mat3_transpose m) m = mat3_id) :
    (vec3_dot (colX m) (colX m) = 1) ∧
    (vec3_dot (colX m) (colY m) = 0) ∧
    (vec3_dot (colX m) (colZ m) = 0) ∧
    (vec3_dot (colY m) (colY m) = 1) ∧
    (vec3_dot (colY m) (colZ m) = 0) ∧
    (vec3_dot (colZ m) (colZ m) = 1) := by
  have h0 := congrArg Mat3.m0 h
  have h1 := congrArg Mat3.m1 h
  have h2 := congrArg Mat3.m2 h
  have h4 := congrArg Mat3.m4 h
  have h5 := congrArg Mat3.m5 h
  have h8 := congrArg Mat3.m8 h
  simp only [mat3_multiply, mat3_transpose, mat3_id] at h0 h1 h2 h4 h5 h8
  refine ⟨?_, ?_, ?_, ?_, ?_, ?_⟩ <;>
    simp only [vec3_dot, colX, colY, colZ] <;> linarith

/-- Every vector decomposes along the columns of an orthonormal matrix:
`v = (v·cX)·cX + (v·cY)·cY + (v·cZ)·cZ`. -/
theorem rot_decomp (h : IsRotation m) (v : Vec3 K) :
    vec3_add (vec3_scale (colX m) (vec3_dot v (colX m)))
      (vec3_add (vec3_scale (colY m) (vec3_dot v (colY m)))
        (vec3_scale (colZ m) (vec3_dot v (colZ m)))) = v := by
  obtain ⟨e0, e1, e2, e3, e4, e5⟩ := rot_row_eqs m h.2
  ext
  · simp only [vec3_add, vec3_scale, vec3_dot, colX, colY, colZ]
    linear_combination v.x * e0 + v.y * e1 + v.z * e2
  · simp only [vec3_add, vec3_scale, vec3_dot, colX, colY, colZ]
    linear_combination v.x * e1 + v.y * e3 + v.z * e4
  · simp only [vec3_add, vec3_scale, vec3_dot, colX, colY, colZ]
    linear_combination v.x * e2 + v.y * e4 + v.z * e5

/-- `cX × cY = det·cZ` (and cyclically) for an orthonormal matrix. -/
theorem rot_cross_cols (h : IsRotation m) :
    vec3_cross (colX m) (colY m) = vec3_scale (colZ m) (mat3_det m) ∧
    vec3_cross (colY m) (colZ m) = vec3_scale (colX m) (mat3_det m) ∧
    vec3_cross (colZ m) (colX m) = vec3_scale (colY m) (mat3_det m) := by
  obtain ⟨c0, c1, c2, c3, c4, c5⟩ := rot_col_eqs m h.1
  refine ⟨?_, ?_, ?_⟩
  all_goals
    refine Vec3.ext ?_ ?_ ?_
  · -- (cX × cY).x = det * cZ.x
    have hd := congrArg Vec3.x (rot_decomp m h (vec3_cross (colX m) (colY m)))
    simp only [vec3_add, vec3_scale, vec3_dot, vec3_cross, colX, colY, colZ,
      mat3_det] at hd ⊢
    linear_combination -hd
  · have hd := congrArg Vec3.y (rot_decomp m h (vec3_cross (colX m) (colY m)))
    simp only [vec3_add, vec3_scale, vec3_dot, vec3_cross, colX, colY, colZ,
      mat3_det] at hd ⊢
    linear_combination -hd
  · have hd := congrArg Vec3.z (rot_decomp m h (vec3_cross (colX m) (colY m)))
    simp only [vec3_add, vec3_scale, vec3_dot, vec3_cross, colX, colY, colZ,
      mat3_det] at hd ⊢
    linear_combination -hd
  · have hd := congrArg Vec3.x (rot_decomp m h (vec3_cross (colY m) (colZ m)))
    simp only [vec3_add, vec3_scale, vec3_dot, vec3_cross, colX, colY, colZ,
      mat3_det] at hd ⊢
    linear_combination -hd
  · have hd := congrArg Vec3.y (rot_decomp m h (vec3_cross (colY m) (colZ m)))
    simp only [vec3_add, vec3_scale, vec3_dot, vec3_cross, colX, colY, colZ,
      mat3_det] at hd ⊢
    linear_combination -hd
  · have hd := congrArg Vec3.z (rot_decomp m h (vec3_cross (colY m) (colZ m)))
    simp only [vec3_add, vec3_scale, vec3_dot, vec3_cross, colX, colY, colZ,
      mat3_det] at hd ⊢
    linear_combination -hd
  · have hd := congrArg Vec3.x (rot_decomp m h (vec3_cross (colZ m) (colX m)))
    simp only [vec3_add, vec3_scale, vec3_dot, vec3_cross, colX, colY, colZ,
      mat3_det] at hd ⊢
    linear_combination -hd
  · have hd := congrArg Vec3.y (rot_decomp m h (vec3_cross (colZ m) (colX m)))
    simp only [vec3_add, vec3_scale, vec3_dot, vec3_cross, colX, colY, colZ,
      mat3_det] at hd ⊢
    linear_combination -hd
  · have hd := congrArg Vec3.z (rot_decomp m h (vec3_cross (colZ m) (colX m)))
    simp only [vec3_add, vec3_scale, vec3_dot, vec3_cross, colX, colY, colZ,
      mat3_det] at hd ⊢
    linear_combination -hd

/-- The determinant of an orthonormal matrix squares to 1. -/
theorem rot_det_sq (h : IsRotation m) : mat3_det m * mat3_det m = 1 := by
  obtain ⟨c0, c1, c2, c3, c4, c5⟩ := rot_col_eqs m h.1
  have hl := vec3_cross_self_dot (colX m) (colY m)
  have hc := (rot_cross_cols m h).1
  rw [hc] at hl
  simp only [vec3_dot_scale_left] at hl
  rw [vec3_dot_comm (colZ m) (vec3_scale (colZ m) (mat3_det m))] at hl
  simp only [vec3_dot_scale_left] at hl
  rw [c0, c1, c3, c5] at hl
  linarith [hl]

/-- `|det| = 1` for an orthonormal matrix. -/
theorem rot_abs_det (h : IsRotation m) : |mat3_det m| = 1 := by
  have hs := rot_det_sq m h
  have : (mat3_det m - 1) * (mat3_det m + 1) = 0 := by linear_combination hs
  rcases mul_eq_zero.mp this with h1 | h1
  · have : mat3_det m = 1 := by linarith
    rw [this]; exact abs_one
  · have : mat3_det m = -1 := by linarith
    rw [this]; simp

end RotationFacts

/-- The `u = A0` cross-test numerator rewritten through the cross product:
`ta2·R[1][v] − ta1·R[2][v] = −det·((A0 × t)·w)`. -/
theorem cross_proj0 (m : Mat3 K) (h : IsRotation m) (t w : Vec3 K) :
    vec3_dot t (colZ m) * vec3_dot (colY m) w - vec3_dot t (colY m) * vec3_dot (colZ m) w
      = -(mat3_det m * vec3_dot (vec3_cross (colX m) t) w) := by
  have hbase : vec3_dot t (colZ m) * vec3_dot (colY m) w - vec3_dot t (colY m) * vec3_dot (colZ m) w
      = -vec3_dot (vec3_cross (vec3_cross (colY m) (colZ m)) t) w := by
    simp only [vec3_dot, vec3_cross, colX, colY, colZ]; ring
  rw [hbase, (rot_cross_cols m h).2.1, vec3_cross_scale_left, vec3_dot_scale_left]

/-- The `u = A1` cross-test numerator: `ta0·R[2][v] − ta2·R[0][v] = −det·((A1 × t)·w)`. -/
theorem cross_proj1 (m : Mat3 K) (h : IsRotation m) (t w : Vec3 K) :
    vec3_dot t (colX m) * vec3_dot (colZ m) w - vec3_dot t (colZ m) * vec3_dot (colX m) w
      = -(mat3_det m * vec3_dot (vec3_cross (colY m) t) w) := by
  have hbase : vec3_dot t (colX m) * vec3_dot (colZ m) w - vec3_dot t (colZ m) * vec3_dot (colX m) w
      = -vec3_dot (vec3_cross (vec3_cross (colZ m) (colX m)) t) w := by
    simp only [vec3_dot, vec3_cross, colX, colY, colZ]; ring
  rw [hbase, (rot_cross_cols m h).2.2, vec3_cross_scale_left, vec3_dot_scale_left]

/-- The `u = A2` cross-test numerator: `ta1·R[0][v] − ta0·R[1][v] = −det·((A2 × t)·w)`. -/
theorem cross_proj2 (m : Mat3 K) (h : IsRotation m) (t w : Vec3 K) :
    vec3_dot t (colY m) * vec3_dot (colX m) w - vec3_dot t (colX m) * vec3_dot (colY m) w
      = -(mat3_det m * vec3_dot (vec3_cross (colZ m) t) w) := by
  have hbase : vec3_dot t (colY m) * vec3_dot (colX m) w - vec3_dot t (colX m) * vec3_dot (colY m) w
      = -vec3_dot (vec3_cross (vec3_cross (colX m) (colY m)) t) w := by
    simp only [vec3_dot, vec3_cross, colX, colY, colZ]; ring
  rw [hbase, (rot_cross_cols m h).1, vec3_cross_scale_left, vec3_dot_scale_left]

theorem cross_abs_core (da db X Y : K) (hda : |da| = 1) (hdb : |db| = 1) (hXY : X = -Y) :
    |-(da * X)| = |-(db * -Y)| := by
  simp only [hXY, abs_neg, abs_mul, hda, hdb, one_mul]

section CrossMatch

variable (A B : Mat3 K) (ha : IsRotation A) (hb : IsRotation B) (t : Vec3 K)

include ha hb

theorem cross_match_00 :
    |vec3_dot t (colZ A) * vec3_dot (colY A) (colX B) -
        vec3_dot t (colY A) * vec3_dot (colZ A) (colX B)| =
      |vec3_dot (vec3_negate t) (colZ B) * vec3_dot (colY B) (colX A) -
        vec3_dot (vec3_negate t) (colY B) * vec3_dot (colZ B) (colX A)| := by
  rw [cross_proj0 A ha t (colX B), cross_proj0 B hb (vec3_negate t) (colX A),
    vec3_cross_neg_right, vec3_dot_neg_left]
  exact cross_abs_core _ _ _ _ (rot_abs_det A ha) (rot_abs_det B hb)
    (vec3_dot_cross_swap (colX A) t (colX B))

theorem cross_match_01 :
    |vec3_dot t (colZ A) * vec3_dot (colY A) (colY B) -
        vec3_dot t (colY A) * vec3_dot (colZ A) (colY B)| =
      |vec3_dot (vec3_negate t) (colX B) * vec3_dot (colZ B) (colX A) -
        vec3_dot (vec3_negate t) (colZ B) * vec3_dot (colX B) (colX A)| := by
  rw [cross_proj0 A ha t (colY B), cross_proj1 B hb (vec3_negate t) (colX A),
    vec3_cross_neg_right, vec3_dot_neg_left]
  exact cross_abs_core _ _ _ _ (rot_abs_det A ha) (rot_abs_det B hb)
    (vec3_dot_cross_swap (colX A) t (colY B))

theorem cross_match_02 :
    |vec3_dot t (colZ A) * vec3_dot (colY A) (colZ B) -
        vec3_dot t (colY A) * vec3_dot (colZ A) (colZ B)| =
      |vec3_dot (vec3_negate t) (colY B) * vec3_dot (colX B) (colX A) -
        vec3_dot (vec3_negate t) (colX B) * vec3_dot (colY B) (colX A)| := by
  rw [cross_proj0 A ha t (colZ B), cross_proj2 B hb (vec3_negate t) (colX A),
    vec3_cross_neg_right, vec3_dot_neg_left]
  exact cross_abs_core _ _ _ _ (rot_abs_det A ha) (rot_abs_det B hb)
    (vec3_dot_cross_swap (colX A) t (colZ B))

theorem cross_match_10 :
    |vec3_dot t (colX A) * vec3_dot (colZ A) (colX B) -
        vec3_dot t (colZ A) * vec3_dot (colX A) (colX B)| =
      |vec3_dot (vec3_negate t) (colZ B) * vec3_dot (colY B) (colY A) -
        vec3_dot (vec3_negate t) (colY B) * vec3_dot (colZ B) (colY A)| := by
  rw [cross_proj1 A ha t (colX B), cross_proj0 B hb (vec3_negate t) (colY A),
    vec3_cross_neg_right, vec3_dot_neg_left]
  exact cross_abs_core _ _ _ _ (rot_abs_det A ha) (rot_abs_det B hb)
    (vec3_dot_cross_swap (colY A) t (colX B))

theorem cross_match_11 :
    |vec3_dot t (colX A) * vec3_dot (colZ A) (colY B) -
        vec3_dot t (colZ A) * vec3_dot (colX A) (colY B)| =
      |vec3_dot (vec3_negate t) (colX B) * vec3_dot (colZ B) (colY A) -
        vec3_dot (vec3_negate t) (colZ B) * vec3_dot (colX B) (colY A)| := by
  rw [cross_proj1 A ha t (colY B), cross_proj1 B hb (vec3_negate t) (colY A),
    vec3_cross_neg_right, vec3_dot_neg_left]
  exact cross_abs_core _ _ _ _ (rot_abs_det A ha) (rot_abs_det B hb)
    (vec3_dot_cross_swap (colY A) t (colY B))

theorem cross_match_12 :
    |vec3_dot t (colX A) * vec3_dot (colZ A) (colZ B) -
        vec3_dot t (colZ A) * vec3_dot (colX A) (colZ B)| =
      |vec3_dot (vec3_negate t) (colY B) * vec3_dot (colX B) (colY A) -
        vec3_dot (vec3_negate t) (colX B) * vec3_dot (colY B) (colY A)| := by
  rw [cross_proj1 A ha t (colZ B), cross_proj2 B hb (vec3_negate t) (colY A),
    vec3_cross_neg_right, vec3_dot_neg_left]
  exact cross_abs_core _ _ _ _ (rot_abs_det A ha) (rot_abs_det B hb)
    (vec3_dot_cross_swap (colY A) t (colZ B))

theorem cross_match_20 :
    |vec3_dot t (colY A) * vec3_dot (colX A) (colX B) -
        vec3_dot t (colX A) * vec3_dot (colY A) (colX B)| =
      |vec3_dot (vec3_negate t) (colZ B) * vec3_dot (colY B) (colZ A) -
        vec3_dot (vec3_negate t) (colY B) * vec3_dot (colZ B) (colZ A)| := by
  rw [cross_proj2 A ha t (colX B), cross_proj0 B hb (vec3_negate t) (colZ A),
    vec3_cross_neg_right, vec3_dot_neg_left]
  exact cross_abs_core _ _ _ _ (rot_abs_det A ha) (rot_abs_det B hb)
    (vec3_dot_cross_swap (colZ A) t (colX B))

theorem cross_match_21 :
    |vec3_dot t (colY A) * vec3_dot (colX A) (colY B) -
        vec3_dot t (colX A) * vec3_dot (colY A) (colY B)| =
      |vec3_dot (vec3_negate t) (colX B) * vec3_dot (colZ B) (colZ A) -
        vec3_dot (vec3_negate t) (colZ B) * vec3_dot (colX B) (colZ A)| := by
  rw [cross_proj2 A ha t (colY B), cross_proj1 B hb (vec3_negate t) (colZ A),
    vec3_cross_neg_right, vec3_dot_neg_left]
  exact cross_abs_core _ _ _ _ (rot_abs_det A ha) (rot_abs_det B hb)
    (vec3_dot_cross_swap (colZ A) t (colY B))

theorem cross_match_22 :
    |vec3_dot t (colY A) * vec3_dot (colX A) (colZ B) -
        vec3_dot t (colX A) * vec3_dot (colY A) (colZ B)| =
      |vec3_dot (vec3_negate t) (colY B) * vec3_dot (colX B) (colZ A) -
        vec3_dot (vec3_negate t) (colX B) * vec3_dot (colY B) (colZ A)| := by
  rw [cross_proj2 A ha t (colZ B), cross_proj2 B hb (vec3_negate t) (colZ A),
    vec3_cross_neg_right, vec3_dot_neg_left]
  exact cross_abs_core _ _ _ _ (rot_abs_det A ha) (rot_abs_det B hb)
    (vec3_dot_cross_swap (colZ A) t (colZ B))

end CrossMatch

theorem abs_dot_neg (t c : Vec3 K) : |vec3_dot (vec3_negate t) c| = |vec3_dot t c| := by
  rw [vec3_dot_neg_left, abs_neg]

/-- One direction of SAT symmetry: each of the 15 separation tests of
`obb_intersects_obb b a` coincides with one of `obb_intersects_obb a b`
(face tests swap roles; cross tests match through `cross_match_**`). -/
theorem obb_sat_symm_mp (a b : OBB K) (ha : IsRotation a.rotation)
    (hb : IsRotation b.rotation) (h : obb_intersects_obb a b) :
    obb_intersects_obb b a := by
  have hts : vec3_sub a.center b.center = vec3_negate (vec3_sub b.center a.center) := by
    ext <;> simp only [vec3_sub, vec3_negate] <;> ring
  simp only [obb_intersects_obb] at h ⊢
  rw [hts]
  obtain ⟨h1, h2, h3, h4, h5, h6, h7, h8, h9, h10, h11, h12, h13, h14, h15⟩ := h
  refine ⟨?_, ?_, ?_, ?_, ?_, ?_, ?_, ?_, ?_, ?_, ?_, ?_, ?_, ?_, ?_⟩
  · convert h4 using 2
    · exact abs_dot_neg _ _
    · simp only [vec3_dot, colX, colY, colZ]; ring_nf
  · convert h5 using 2
    · exact abs_dot_neg _ _
    · simp only [vec3_dot, colX, colY, colZ]; ring_nf
  · convert h6 using 2
    · exact abs_dot_neg _ _
    · simp only [vec3_dot, colX, colY, colZ]; ring_nf
  · convert h1 using 2
    · exact abs_dot_neg _ _
    · simp only [vec3_dot, colX, colY, colZ]; ring_nf
  · convert h2 using 2
    · exact abs_dot_neg _ _
    · simp only [vec3_dot, colX, colY, colZ]; ring_nf
  · convert h3 using 2
    · exact abs_dot_neg _ _
    · simp only [vec3_dot, colX, colY, colZ]; ring_nf
  · convert h7 using 2
    · exact (cross_match_00 a.rotation b.rotation ha hb (vec3_sub b.center a.center)).symm
    · simp only [vec3_dot, colX, colY, colZ]; ring_nf
  · convert h10 using 2
    · exact (cross_match_10 a.rotation b.rotation ha hb (vec3_sub b.center a.center)).symm
    · simp only [vec3_dot, colX, colY, colZ]; ring_nf
  · convert h13 using 2
    · exact (cross_match_20 a.rotation b.rotation ha hb (vec3_sub b.center a.center)).symm
    · simp only [vec3_dot, colX, colY, colZ]; ring_nf
  · convert h8 using 2
    · exact (cross_match_01 a.rotation b.rotation ha hb (vec3_sub b.center a.center)).symm
    · simp only [vec3_dot, colX, colY, colZ]; ring_nf
  · convert h11 using 2
    · exact (cross_match_11 a.rotation b.rotation ha hb (vec3_sub b.center a.center)).symm
    · simp only [vec3_dot, colX, colY, colZ]; ring_nf
  · convert h14 using 2
    · exact (cross_match_21 a.rotation b.rotation ha hb (vec3_sub b.center a.center)).symm
    · simp only [vec3_dot, colX, colY, colZ]; ring_nf
  · convert h9 using 2
    · exact (cross_match_02 a.rotation b.rotation ha hb (vec3_sub b.center a.center)).symm
    · simp only [vec3_dot, colX, colY, colZ]; ring_nf
  · convert h12 using 2
    · exact (cross_match_12 a.rotation b.rotation ha hb (vec3_sub b.center a.center)).symm
    · simp only [vec3_dot, colX, colY, colZ]; ring_nf
  · convert h15 using 2
    · exact (cross_match_22 a.rotation b.rotation ha hb (vec3_sub b.center a.center)).symm
    · simp only [vec3_dot, colX, colY, colZ]; ring_nf

/-! ### Claim C7: symmetry of `obb_intersects_obb` -/

/-- **C7.** The OBB-OBB intersection test is symmetric: for every pair of OBBs
(with genuine rotation matrices, as the OBB contract requires),
`obb_intersects_obb a b` holds iff `obb_intersects_obb b a` does — epsilon
included. -/
theorem obb_intersects_obb_symmetric (a b : OBB ℚ) (ha : IsRotation a.rotation)
    (hb : IsRotation b.rotation) :
    obb_intersects_obb a b ↔ obb_intersects_obb b a :=
  ⟨obb_sat_symm_mp a b ha hb, obb_sat_symm_mp b a hb ha⟩

/-- Pythagorean-triple rotation about the Y axis (cos = 3/5, sin = 4/5),
an exactly representable rotation used as a concrete test matrix. -/
def mat3_pyth : Mat3 ℚ := ⟨3/5, 0, 4/5, 0, 1, 0, -4/5, 0, 3/5⟩

theorem obb_intersects_obb_symmetric_witness :
    IsRotation (mat3_id (K := ℚ)) ∧ IsRotation mat3_pyth ∧
      (obb_intersects_obb ⟨⟨0, 0, 0⟩, ⟨1, 1, 1⟩, mat3_id⟩
          ⟨⟨3/2, 1/2, 0⟩, ⟨1, 2, 1⟩, mat3_pyth⟩ ↔
        obb_intersects_obb ⟨⟨3/2, 1/2, 0⟩, ⟨1, 2, 1⟩, mat3_pyth⟩
          ⟨⟨0, 0, 0⟩, ⟨1, 1, 1⟩, mat3_id⟩) := by
  have h1 : IsRotation (mat3_id (K := ℚ)) := by
    refine ⟨?_, ?_⟩ <;> (ext <;> norm_num [mat3_multiply, mat3_transpose, mat3_id])
  have h2 : IsRotation mat3_pyth := by
    refine ⟨?_, ?_⟩ <;>
      (ext <;> norm_num [mat3_multiply, mat3_transpose, mat3_id, mat3_pyth])
  exact ⟨h1, h2, obb_intersects_obb_symmetric _ _ h1 h2⟩

/-! ## MPD assembly loader (`src/client/src/render/mpd_loader.cpp`)

`expand_submodel` flattens the submodel hierarchy: every direct part of a
submodel is emitted with `position = parent_position + parent_rotation·local`
and `rotation = parent_rotation·local_rotation`; submodel references recurse
with the composed transform.  `mat3_transform_point` doubles as the loader's
local `transform_point` (mpd_loader.cpp lines 168-172), `mat3_multiply` as its
`matrix_multiply` (lines 155-165) — the formulas are identical. -/

/-- `MPD_MAX_PARTS` (mpd_loader.h line 23). -/
def MPD_MAX_PARTS : Nat := 1024

/-- `MPD_MAX_SUBMODELS` (mpd_loader.h line 25). -/
def MPD_MAX_SUBMODELS : Nat := 64

/-- A flattened part (`MpdPart`, mpd_loader.h): name, color, baked world
position `x,y,z` (as a `Vec3`), baked rotation, owning top-level submodel. -/
structure MpdPart where
  part_name : String
  color_code : Int
  pos : Vec3 ℚ
  rotation : Mat3 ℚ
  submodel_index : Int
  deriving DecidableEq, Repr

/-- A part placement line inside one `FILE` section (`MpdPart` as stored in
`Submodel::parts` before expansion). -/
structure MpdSrcPart where
  part_name : String
  color_code : Int
  pos : Vec3 ℚ
  rotation : Mat3 ℚ
  deriving DecidableEq, Repr

/-- `SubmodelRef` (mpd_loader.cpp lines 141-146). -/
structure SubmodelRef where
  name : String
  color_code : Int
  pos : Vec3 ℚ
  rotation : Mat3 ℚ
  deriving DecidableEq, Repr

/-- `Submodel` (mpd_loader.cpp lines 148-152). -/
structure MpdSubmodelSrc where
  name : String
  parts : List MpdSrcPart
  submodels : List SubmodelRef
  deriving DecidableEq, Repr

/-- `MpdSubmodel` of the output document (mpd_loader.h lines 48-52). -/
structure MpdSubmodelEntry where
  name : String
  part_start : Nat
  part_count : Nat
  deriving DecidableEq, Repr

/-- The output document (`MpdDocument`): flattened parts plus the top-level
submodel table. -/
structure MpdDocument where
  parts : List MpdPart
  submodels : List MpdSubmodelEntry
  deriving DecidableEq, Repr

/-- `submodels.find(name)` with the lowercase fallback (mpd_loader.cpp lines
211-220); the C++ `std::map` has unique keys, modelled as first match in an
association list. -/
def find_submodel (subs : List (String × MpdSubmodelSrc)) (name : String) :
    Option MpdSubmodelSrc :=
  match subs.find? (fun p => p.1 = name) with
  | some p => some p.2
  | none =>
    match subs.find? (fun p => p.1 = name.toLower) with
    | some p => some p.2
    | none => none

/-- Update `submodels[i].part_count` (mpd_loader.cpp line 286). -/
def set_part_count (l : List MpdSubmodelEntry) (i : Nat) (n : Nat) :
    List MpdSubmodelEntry :=
  match l.get? i with
  | some e => l.set i { e with part_count := n }
  | none => l

/-- The parts loop of `expand_submodel` (mpd_loader.cpp lines 225-252): emit
each direct part with composed transform and inherited color, aborting the
invocation (`return`; second component `true`) once `MPD_MAX_PARTS` is hit. -/
def mpd_emit_parts (ps : List MpdSrcPart) (ppos : Vec3 ℚ) (parent_rot : Mat3 ℚ)
    (parent_color : Int) (idx : Int) (doc : MpdDocument) : MpdDocument × Bool :=
  match ps with
  | [] => (doc, false)
  | part :: rest =>
    if doc.parts.length ≥ MPD_MAX_PARTS then (doc, true)
    else
      let r := mat3_transform_point parent_rot part.pos
      let out_part : MpdPart :=
        { part_name := part.part_name.take 127
          color_code := if part.color_code = 16 then parent_color else part.color_code
          pos := vec3_add ppos r
          rotation := mat3_multiply parent_rot part.rotation
          submodel_index := idx }
      mpd_emit_parts rest ppos parent_rot parent_color idx
        { doc with parts := doc.parts ++ [out_part] }

mutual

/-- `expand_submodel` (mpd_loader.cpp lines 198-289): depth-capped recursive
flattening. -/
def expand_submodel (subs : List (String × MpdSubmodelSrc)) (name : String)
    (ppos : Vec3 ℚ) (parent_rot : Mat3 ℚ) (parent_color : Int)
    (doc : MpdDocument) (depth : Nat) (current_idx : Int) : MpdDocument :=
  if depth > 20 then doc
  else
    match find_submodel subs name with
    | none => doc
    | some sub =>
      let ed := mpd_emit_parts sub.parts ppos parent_rot parent_color current_idx doc
      if ed.2 then ed.1
      else expand_refs subs sub.submodels ppos parent_rot parent_color ed.1 depth current_idx
termination_by (21 - depth, 1, 0)

/-- The reference loop of `expand_submodel` (mpd_loader.cpp lines 255-288):
compose the transform, register a top-level submodel entry at depth 0, recurse,
then record the emitted part count.  The callee's own `depth > 20` entry guard
is checked at the call site (the callee returns the document unchanged in that
case), which bounds the recursion structurally. -/
def expand_refs (subs : List (String × MpdSubmodelSrc)) (refs : List SubmodelRef)
    (ppos : Vec3 ℚ) (parent_rot : Mat3 ℚ) (parent_color : Int)
    (doc : MpdDocument) (depth : Nat) (current_idx : Int) : MpdDocument :=
  match refs with
  | [] => doc
  | ref :: rest =>
    let r := mat3_transform_point parent_rot ref.pos
    let new_pos := vec3_add ppos r
    let new_rot := mat3_multiply parent_rot ref.rotation
    let new_color := if ref.color_code = 16 then parent_color else ref.color_code
    let reg :=
      if depth = 0 ∧ doc.submodels.length < MPD_MAX_SUBMODELS then
        ({ doc with submodels := doc.submodels ++
              [{ name := ref.name.take 127, part_start := doc.parts.length,
                 part_count := 0 }] },
          (doc.submodels.length : Int))
      else (doc, current_idx)
    let parts_before := reg.1.parts.length
    let doc2 :=
      if h : depth + 1 > 20 then reg.1
      else expand_submodel subs ref.name new_pos new_rot new_color reg.1
        (depth + 1) reg.2
    let doc3 :=
      if depth = 0 ∧ 0 ≤ reg.2 ∧ reg.2 < (doc2.submodels.length : Int) then
        { doc2 with submodels :=
            set_part_count doc2.submodels reg.2.toNat (doc2.parts.length - parts_before) }
      else doc2
    expand_refs subs rest ppos parent_rot parent_color doc3 depth current_idx
termination_by (21 - depth, 0, refs.length)
decreasing_by
  all_goals simp_wf
  · apply Prod.Lex.left
    omega
  · apply Prod.Lex.right
    apply Prod.Lex.right
    omega

end

/-- The root expansion call of `mpd_load` (mpd_loader.cpp lines 393-399):
identity rotation, origin, default color 72, depth 0, submodel index -1. -/
def mpd_expand_root (subs : List (String × MpdSubmodelSrc)) (main_model : String) :
    MpdDocument :=
  expand_submodel subs main_model ⟨0, 0, 0⟩ mat3_id 72 ⟨[], []⟩ 0 (-1)

/-- While the part cap is not reached, the parts loop emits every direct part
with the composed transform, in order, and does not abort. -/
theorem mpd_emit_parts_complete (ps : List MpdSrcPart) (ppos : Vec3 ℚ)
    (parent_rot : Mat3 ℚ) (parent_color : Int) (idx : Int) :
    ∀ doc : MpdDocument, doc.parts.length + ps.length ≤ MPD_MAX_PARTS →
      mpd_emit_parts ps ppos parent_rot parent_color idx doc =
        ({ doc with parts := doc.parts ++ ps.map (fun p =>
            { part_name := p.part_name.take 127
              color_code := if p.color_code = 16 then parent_color else p.color_code
              pos := vec3_add ppos (mat3_transform_point parent_rot p.pos)
              rotation := mat3_multiply parent_rot p.rotation
              submodel_index := idx }) }, false) := by
  induction ps with
  | nil => intro doc _; simp [mpd_emit_parts]
  | cons part rest ih =>
    intro doc hcap
    rw [mpd_emit_parts]
    rw [if_neg (by simp only [List.length_cons] at hcap; omega)]
    rw [ih _ (by simp at hcap ⊢; omega)]
    simp

/-! ### Claim C5: hierarchy flattening composes transforms -/

/-- **C5.** At every nesting level up to the recursion cap (`depth ≤ 20`),
expanding a submodel whose accumulated placement is `(T, R)` emits each of its
parts with local transform `(t, r)` at world position `T + R·t` and world
rotation `R·r` — exactly, hence within the 1e-5 floating-point tolerance.
(`expand_refs` passes the same composition `(T + R·t₂, R·r₂)` to nested
references, so the accumulated placement of any submodel is the composition of
its ancestors' placements.) -/
theorem mpd_flattening_composes
    (subs : List (String × MpdSubmodelSrc)) (name : String) (sub : MpdSubmodelSrc)
    (hfind : find_submodel subs name = some sub)
    (hleaf : sub.submodels = [])
    (T : Vec3 ℚ) (R : Mat3 ℚ) (c : Int) (doc : MpdDocument) (depth : Nat) (idx : Int)
    (hdepth : depth ≤ 20)
    (hcap : doc.parts.length + sub.parts.length ≤ MPD_MAX_PARTS) :
    (expand_submodel subs name T R c doc depth idx).parts =
      doc.parts ++ sub.parts.map (fun p =>
        { part_name := p.part_name.take 127
          color_code := if p.color_code = 16 then c else p.color_code
          pos := vec3_add T (mat3_transform_point R p.pos)
          rotation := mat3_multiply R p.rotation
          submodel_index := idx }) := by
  rw [expand_submodel]
  rw [if_neg (by omega), hfind]
  dsimp only
  rw [mpd_emit_parts_complete sub.parts T R c idx doc hcap, hleaf]
  simp [expand_refs]

/-- A two-section document: the main model places `sub.ldr` at
`(T, R) = ((10,0,0), pyth)` with color 4; `sub.ldr` holds one color-16 part at
`(t, r) = ((1,2,3), id)`. -/
def mpd_sub_example : MpdSubmodelSrc :=
  { name := "sub.ldr"
    parts := [{ part_name := "228-2500-021.dat", color_code := 16,
                pos := ⟨1, 2, 3⟩, rotation := mat3_id }]
    submodels := [] }

def mpd_subs_example : List (String × MpdSubmodelSrc) :=
  [("main.ldr",
    { name := "main.ldr", parts := [],
      submodels := [{ name := "sub.ldr", color_code := 4,
                      pos := ⟨10, 0, 0⟩, rotation := mat3_pyth }] }),
   ("sub.ldr", mpd_sub_example)]

set_option maxRecDepth 4000 in
theorem mpd_flattening_composes_witness :
    find_submodel mpd_subs_example "sub.ldr" = some mpd_sub_example ∧
    mpd_sub_example.submodels = [] ∧ (1 : Nat) ≤ 20 ∧
    (MpdDocument.parts ⟨[], []⟩).length + mpd_sub_example.parts.length ≤ MPD_MAX_PARTS ∧
    (expand_submodel mpd_subs_example "sub.ldr" ⟨10, 0, 0⟩ mat3_pyth 4
        ⟨[], []⟩ 1 0).parts =
      [{ part_name := "228-2500-021.dat", color_code := 4,
         pos := ⟨13, 2, 1⟩, rotation := mat3_pyth, submodel_index := 0 }] := by
  have hfind : find_submodel mpd_subs_example "sub.ldr" = some mpd_sub_example := by
    rfl
  have hcap : (MpdDocument.parts ⟨[], []⟩).length + mpd_sub_example.parts.length ≤
      MPD_MAX_PARTS := by
    simp [mpd_sub_example, MPD_MAX_PARTS]
  have h := mpd_flattening_composes mpd_subs_example "sub.ldr" mpd_sub_example
    hfind rfl ⟨10, 0, 0⟩ mat3_pyth 4 ⟨[], []⟩ 1 0 (by norm_num) hcap
  refine ⟨hfind, rfl, by norm_num, hcap, ?_⟩
  rw [h]
  norm_num [mpd_sub_example, vec3_add, mat3_transform_point, mat3_multiply,
    mat3_id, mat3_pyth, Vec3.ext_iff, Mat3.ext_iff, MpdPart.mk.injEq]
  rfl

/-! ## Drivetrain physics (`src/client/src/physics/drivetrain.cpp`)

Embedded over `ℝ` (the C code computes with 32-bit floats and `cosf`/`sinf`;
idealised as exact real arithmetic with `Real.cos`/`Real.sin`).  The local
variables of `drivetrain_update` are named definitions below so that claims
can refer to them; `drivetrain_update` assembles them exactly as the source
does. -/

/-- `#define PI 3.14159265358979323846f` (drivetrain.cpp line 13). -/
noncomputable def PI : ℝ := 3.14159265358979323846

/-- `VEXIQ_MOTOR_STALL_TORQUE` (physics_config.h line 24). -/
noncomputable def VEXIQ_MOTOR_STALL_TORQUE : ℝ := 4.6

/-- `VEXIQ_LINEAR_DAMPING` (physics_config.h line 65). -/
noncomputable def VEXIQ_LINEAR_DAMPING : ℝ := 0.90

/-- `VEXIQ_ANGULAR_DAMPING` (physics_config.h line 68). -/
noncomputable def VEXIQ_ANGULAR_DAMPING : ℝ := 0.85

/-- `DrivetrainConfig` (drivetrain.h lines 31-37). -/
@[ext]
structure DrivetrainConfig where
  track_width : ℝ
  wheel_diameter : ℝ
  max_rpm : ℝ
  robot_mass : ℝ
  moment_of_inertia : ℝ

/-- `Drivetrain` (drivetrain.h lines 40-74), plus the contact-constraint
fields `in_contact`/`contact_nx`/`contact_nz` that `main.cpp` (lines
1083-1085, 1185-1190) stores into the drivetrain; this snapshot's
`drivetrain.h` does not declare them and `drivetrain_update` never reads
them. -/
@[ext]
structure Drivetrain where
  config : DrivetrainConfig
  left_motor_pct : ℝ
  right_motor_pct : ℝ
  vel_x : ℝ
  vel_z : ℝ
  angular_vel : ℝ
  pos_x : ℝ
  pos_z : ℝ
  heading : ℝ
  ext_force_x : ℝ
  ext_force_z : ℝ
  ext_torque : ℝ
  friction_coeff : ℝ
  left_wheels_slipping : Bool
  right_wheels_slipping : Bool
  linear_velocity : ℝ
  left_wheel_vel : ℝ
  right_wheel_vel : ℝ
  in_contact : Bool
  contact_nx : ℝ
  contact_nz : ℝ

/-- `DEFAULT_CONFIG` (drivetrain.cpp lines 16-22). -/
noncomputable def DEFAULT_CONFIG : DrivetrainConfig :=
  { track_width := 10, wheel_diameter := 4, max_rpm := 120,
    robot_mass := 3, moment_of_inertia := 0.13 }

/-- `drivetrain_init_config` (drivetrain.cpp lines 28-32): zero the state
(`memset`), install the config, default friction 0.8. -/
noncomputable def drivetrain_init_config (config : DrivetrainConfig) : Drivetrain :=
  { config := config
    left_motor_pct := 0, right_motor_pct := 0
    vel_x := 0, vel_z := 0, angular_vel := 0
    pos_x := 0, pos_z := 0, heading := 0
    ext_force_x := 0, ext_force_z := 0, ext_torque := 0
    friction_coeff := 0.8
    left_wheels_slipping := false, right_wheels_slipping := false
    linear_velocity := 0, left_wheel_vel := 0, right_wheel_vel := 0
    in_contact := false, contact_nx := 0, contact_nz := 0 }

/-- `drivetrain_init` (drivetrain.cpp lines 24-26). -/
noncomputable def drivetrain_init : Drivetrain := drivetrain_init_config DEFAULT_CONFIG

/-- `drivetrain_set_motors` (drivetrain.cpp lines 52-61): clamp to ±100 and
store.  (No caller exists in this snapshot's `main.cpp`.) -/
noncomputable def drivetrain_set_motors (d : Drivetrain) (left_percent right_percent : ℝ) :
    Drivetrain :=
  let l := if left_percent > 100 then 100 else left_percent
  let l := if l < -100 then -100 else l
  let r := if right_percent > 100 then 100 else right_percent
  let r := if r < -100 then -100 else r
  { d with left_motor_pct := l, right_motor_pct := r }

/-- `wheel_radius` (drivetrain.cpp line 97). -/
noncomputable def wheel_radius (d : Drivetrain) : ℝ := d.config.wheel_diameter / 2

/-- `wheel_circumference` (line 98). -/
noncomputable def wheel_circumference (d : Drivetrain) : ℝ := PI * d.config.wheel_diameter

/-- `max_wheel_velocity` (line 101): surface speed at no-load RPM. -/
noncomputable def max_wheel_velocity (d : Drivetrain) : ℝ :=
  (d.config.max_rpm / 60) * wheel_circumference d

/-- `left_speed_ratio` clamped to `[0, 1]` (lines 109-112). -/
noncomputable def left_speed_frac (d : Drivetrain) : ℝ :=
  let r := |d.left_wheel_vel| / max_wheel_velocity d
  if r > 1 then 1 else r

/-- `right_speed_ratio` clamped (lines 110-112). -/
noncomputable def right_speed_frac (d : Drivetrain) : ℝ :=
  let r := |d.right_wheel_vel| / max_wheel_velocity d
  if r > 1 then 1 else r

/-- `left_available_torque` (line 114). -/
noncomputable def left_available_torque (d : Drivetrain) : ℝ :=
  VEXIQ_MOTOR_STALL_TORQUE * (1 - left_speed_frac d)

/-- `right_available_torque` (line 115). -/
noncomputable def right_available_torque (d : Drivetrain) : ℝ :=
  VEXIQ_MOTOR_STALL_TORQUE * (1 - right_speed_frac d)

/-- `left_motor_force` (line 118). -/
noncomputable def left_motor_force (d : Drivetrain) : ℝ :=
  (d.left_motor_pct / 100) * (left_available_torque d / wheel_radius d)

/-- `right_motor_force` (line 119). -/
noncomputable def right_motor_force (d : Drivetrain) : ℝ :=
  (d.right_motor_pct / 100) * (right_available_torque d / wheel_radius d)

/-- `max_friction` (lines 127-131): `(robot_mass / 2) * friction_coeff`. -/
noncomputable def max_friction (d : Drivetrain) : ℝ :=
  (d.config.robot_mass / 2) * d.friction_coeff

/-- `left_actual_force` (lines 139-146): clamp to the signed friction limit. -/
noncomputable def left_actual_force (d : Drivetrain) : ℝ :=
  if |left_motor_force d| > max_friction d then
    (if left_motor_force d > 0 then max_friction d else -max_friction d)
  else left_motor_force d

/-- `right_actual_force` (lines 148-155). -/
noncomputable def right_actual_force (d : Drivetrain) : ℝ :=
  if |right_motor_force d| > max_friction d then
    (if right_motor_force d > 0 then max_friction d else -max_friction d)
  else right_motor_force d

/-- The slip flag assignments of lines 139-155. -/
noncomputable def left_slipping_now (d : Drivetrain) : Bool :=
  if |left_motor_force d| > max_friction d then true else false

noncomputable def right_slipping_now (d : Drivetrain) : Bool :=
  if |right_motor_force d| > max_friction d then true else false

/-- The `while (heading > PI) heading -= 2*PI;` loop (drivetrain.cpp line 256). -/
noncomputable def wrap_down (h : ℝ) : ℝ :=
  if hgt : h > PI then wrap_down (h - 2 * PI) else h
termination_by (⌈(h - PI) / (2 * PI)⌉).toNat
decreasing_by
  have hpi : (0 : ℝ) < PI := by norm_num [PI]
  have h2 : (h - 2 * PI - PI) / (2 * PI) = (h - PI) / (2 * PI) - 1 := by
    field_simp
    ring
  have h3 : (0 : ℝ) < (h - PI) / (2 * PI) := by
    apply div_pos <;> linarith
  have h4 : (0 : Int) < ⌈(h - PI) / (2 * PI)⌉ := Int.ceil_pos.mpr h3
  rw [h2, Int.ceil_sub_one]
  omega

/-- The `while (heading < -PI) heading += 2*PI;` loop (drivetrain.cpp line 257). -/
noncomputable def wrap_up (h : ℝ) : ℝ :=
  if hlt : h < -PI then wrap_up (h + 2 * PI) else h
termination_by (⌈(-PI - h) / (2 * PI)⌉).toNat
decreasing_by
  have hpi : (0 : ℝ) < PI := by norm_num [PI]
  have h2 : (-PI - (h + 2 * PI)) / (2 * PI) = (-PI - h) / (2 * PI) - 1 := by
    field_simp
    ring
  have h3 : (0 : ℝ) < (-PI - h) / (2 * PI) := by
    apply div_pos <;> linarith
  have h4 : (0 : Int) < ⌈(-PI - h) / (2 * PI)⌉ := Int.ceil_pos.mpr h3
  rw [h2, Int.ceil_sub_one]
  omega

/-- The heading normalisation of lines 256-257: both loops in sequence. -/
noncomputable def normalize_heading (h : ℝ) : ℝ := wrap_up (wrap_down h)

/-- `drivetrain_update` (drivetrain.cpp lines 88-270).  The two tuning
scalars are passed as parameters:

Modelled from the spec: `VEXIQ_FORWARD_SPEED_SCALE` and
`VEXIQ_TURN_SPEED_SCALE` are used at drivetrain.cpp lines 170-171 but defined
nowhere under `src/` (physics_config.h lacks them); §4.6 step 4 of the spec
says only "Apply tuning scalars (forward/turn)", so their values are left
universally quantified. -/
noncomputable def drivetrain_update (FORWARD_SPEED_SCALE TURN_SPEED_SCALE : ℝ)
    (d : Drivetrain) (dt_sec : ℝ) : Drivetrain :=
  -- Step 4: net forces in robot frame, with tuning scalars
  let track_half := d.config.track_width / 2
  let forward_force1 := (left_actual_force d + right_actual_force d) * FORWARD_SPEED_SCALE
  let drive_torque1 := ((right_actual_force d - left_actual_force d) * track_half) *
    TURN_SPEED_SCALE
  -- Step 5: transform external forces into the robot frame, add, clear
  let cos_h := Real.cos d.heading
  let sin_h := Real.sin d.heading
  let ext_forward := d.ext_force_z * cos_h + d.ext_force_x * sin_h
  let ext_lateral := -d.ext_force_z * sin_h + d.ext_force_x * cos_h
  let forward_force := forward_force1 + ext_forward
  let lateral_force := ext_lateral
  let total_torque := drive_torque1 + d.ext_torque
  -- Step 6: accelerations (mass in slugs = lbs / 386.1)
  let mass_slugs := d.config.robot_mass / 386.1
  let forward_accel := forward_force / mass_slugs
  let lateral_accel := lateral_force / mass_slugs
  let angular_accel := total_torque / d.config.moment_of_inertia
  -- Step 7: integrate velocities, damping, motor braking with deadband snap
  let vel_forward1 := (d.vel_z * cos_h + d.vel_x * sin_h + forward_accel * dt_sec) *
    VEXIQ_LINEAR_DAMPING
  let vel_lateral := (-d.vel_z * sin_h + d.vel_x * cos_h + lateral_accel * dt_sec) *
    VEXIQ_LINEAR_DAMPING
  let angular_vel1 := (d.angular_vel + angular_accel * dt_sec) * VEXIQ_ANGULAR_DAMPING
  let motors_off := |d.left_motor_pct| < 1 ∧ |d.right_motor_pct| < 1
  let vel_forward2 := if motors_off then vel_forward1 * 0.85 else vel_forward1
  let angular_vel2 := if motors_off then angular_vel1 * 0.85 else angular_vel1
  let vel_forward := if motors_off ∧ |vel_forward2| < 0.5 then 0 else vel_forward2
  let angular_vel := if motors_off ∧ |angular_vel2| < 0.01 then 0 else angular_vel2
  -- transform back to world frame
  let vel_x := vel_forward * sin_h + vel_lateral * cos_h
  let vel_z := vel_forward * cos_h - vel_lateral * sin_h
  -- Step 8: integrate position and heading, normalise heading
  { d with
    left_wheels_slipping := left_slipping_now d
    right_wheels_slipping := right_slipping_now d
    ext_force_x := 0
    ext_force_z := 0
    ext_torque := 0
    angular_vel := angular_vel
    vel_x := vel_x
    vel_z := vel_z
    pos_x := d.pos_x + vel_x * dt_sec
    pos_z := d.pos_z + vel_z * dt_sec
    heading := normalize_heading (d.heading + angular_vel * dt_sec)
    -- Step 9: derived values
    linear_velocity := vel_forward
    left_wheel_vel := vel_forward - angular_vel * track_half
    right_wheel_vel := vel_forward + angular_vel * track_half }

theorem wrap_down_eq_self {h : ℝ} (hle : h ≤ PI) : wrap_down h = h := by
  rw [wrap_down]
  exact dif_neg (not_lt.mpr hle)

theorem wrap_up_eq_self {h : ℝ} (hge : -PI ≤ h) : wrap_up h = h := by
  rw [wrap_up]
  exact dif_neg (not_lt.mpr hge)

/-- Headings already in `[-PI, PI]` pass through the normalisation loops
unchanged. -/
theorem normalize_heading_eq_self {h : ℝ} (h1 : -PI ≤ h) (h2 : h ≤ PI) :
    normalize_heading h = h := by
  rw [normalize_heading, wrap_down_eq_self h2, wrap_up_eq_self h1]

theorem update_left_slip (F T : ℝ) (d : Drivetrain) (s : ℝ) :
    (drivetrain_update F T d s).left_wheels_slipping = left_slipping_now d := rfl

theorem update_right_slip (F T : ℝ) (d : Drivetrain) (s : ℝ) :
    (drivetrain_update F T d s).right_wheels_slipping = right_slipping_now d := rfl

/-! ### Claim C3: torque curve, wheel force and friction cap -/

/-- **C3.** In every `drivetrain_update` step (for either tuning scalar and
time step), each side's wheel force equals
`(motor_percent/100) · (stall_torque · (1 − min(1, |wheel_surface_vel| / max_surface_vel))) / wheel_radius`
with `max_surface_vel = (max_RPM/60) · π · wheel_diameter`; if its magnitude
exceeds `(robot_weight/2) · friction_coefficient` the applied force is clamped
to the signed maximum and that side's slipping flag is set, otherwise the flag
is cleared and the force applied unchanged. -/
theorem drivetrain_wheel_force_friction_cap (F T dt_sec : ℝ) (d : Drivetrain) :
    left_motor_force d =
      d.left_motor_pct / 100 *
        (VEXIQ_MOTOR_STALL_TORQUE *
          (1 - min 1 (|d.left_wheel_vel| /
            (d.config.max_rpm / 60 * (PI * d.config.wheel_diameter))))) /
        (d.config.wheel_diameter / 2) ∧
    right_motor_force d =
      d.right_motor_pct / 100 *
        (VEXIQ_MOTOR_STALL_TORQUE *
          (1 - min 1 (|d.right_wheel_vel| /
            (d.config.max_rpm / 60 * (PI * d.config.wheel_diameter))))) /
        (d.config.wheel_diameter / 2) ∧
    ((drivetrain_update F T d dt_sec).left_wheels_slipping = true ↔
      |left_motor_force d| > d.config.robot_mass / 2 * d.friction_coeff) ∧
    ((drivetrain_update F T d dt_sec).right_wheels_slipping = true ↔
      |right_motor_force d| > d.config.robot_mass / 2 * d.friction_coeff) ∧
    left_actual_force d =
      (if |left_motor_force d| > d.config.robot_mass / 2 * d.friction_coeff then
        (if left_motor_force d > 0 then d.config.robot_mass / 2 * d.friction_coeff
         else -(d.config.robot_mass / 2 * d.friction_coeff))
       else left_motor_force d) ∧
    right_actual_force d =
      (if |right_motor_force d| > d.config.robot_mass / 2 * d.friction_coeff then
        (if right_motor_force d > 0 then d.config.robot_mass / 2 * d.friction_coeff
         else -(d.config.robot_mass / 2 * d.friction_coeff))
       else right_motor_force d) := by
  have hmin : ∀ r : ℝ, (if r > 1 then (1 : ℝ) else r) = min 1 r := by
    intro r
    rcases le_or_lt r 1 with hle | hgt
    · rw [if_neg (not_lt.mpr hle), min_eq_right hle]
    · rw [if_pos hgt, min_eq_left hgt.le]
  have hFl : left_motor_force d =
      d.left_motor_pct / 100 *
        (VEXIQ_MOTOR_STALL_TORQUE *
          (1 - min 1 (|d.left_wheel_vel| /
            (d.config.max_rpm / 60 * (PI * d.config.wheel_diameter))))) /
        (d.config.wheel_diameter / 2) := by
    unfold left_motor_force left_available_torque left_speed_frac wheel_radius
      max_wheel_velocity wheel_circumference
    rw [hmin]
    ring
  have hFr : right_motor_force d =
      d.right_motor_pct / 100 *
        (VEXIQ_MOTOR_STALL_TORQUE *
          (1 - min 1 (|d.right_wheel_vel| /
            (d.config.max_rpm / 60 * (PI * d.config.wheel_diameter))))) /
        (d.config.wheel_diameter / 2) := by
    unfold right_motor_force right_available_torque right_speed_frac wheel_radius
      max_wheel_velocity wheel_circumference
    rw [hmin]
    ring
  have hmax : max_friction d = d.config.robot_mass / 2 * d.friction_coeff := rfl
  refine ⟨hFl, hFr, ?_, ?_, ?_, ?_⟩
  · rw [update_left_slip]
    simp only [left_slipping_now, hmax]
    split_ifs with hc
    · simpa using hc
    · simpa using hc
  · rw [update_right_slip]
    simp only [right_slipping_now, hmax]
    split_ifs with hc
    · simpa using hc
    · simpa using hc
  · simp only [left_actual_force, hmax]
  · simp only [right_actual_force, hmax]

/-! ### Claim C8: drivetrain neutrality (corrected)

As stated, the claim fails: (1) the heading-normalisation loops of
`drivetrain_update` change any heading outside `[-PI, PI]` even at rest, and
(2) with a negative friction cap (negative friction coefficient) the friction
clamp applies a non-zero force at zero motor command.  The amended claim adds
the normalised-heading range and a non-negative friction cap. -/

/-- **C8 (amended).** For a drivetrain with zero motor commands, zero
accumulated external force and torque, zero linear and angular velocity, a
non-negative friction cap, and heading already in the normalised range
`[-PI, PI]`, one `drivetrain_update` with any time step (and any tuning
scalars) leaves `(pos_x, pos_z, heading)` unchanged. -/
theorem drivetrain_neutrality_amended (F T dt_sec : ℝ) (d : Drivetrain)
    (hl : d.left_motor_pct = 0) (hr : d.right_motor_pct = 0)
    (hfx : d.ext_force_x = 0) (hfz : d.ext_force_z = 0) (htq : d.ext_torque = 0)
    (hvx : d.vel_x = 0) (hvz : d.vel_z = 0) (hav : d.angular_vel = 0)
    (hmf : 0 ≤ max_friction d)
    (hh1 : -PI ≤ d.heading) (hh2 : d.heading ≤ PI) :
    (drivetrain_update F T d dt_sec).pos_x = d.pos_x ∧
    (drivetrain_update F T d dt_sec).pos_z = d.pos_z ∧
    (drivetrain_update F T d dt_sec).heading = d.heading := by
  have hFl : left_motor_force d = 0 := by
    simp [left_motor_force, hl]
  have hFr : right_motor_force d = 0 := by
    simp [right_motor_force, hr]
  have hal : left_actual_force d = 0 := by
    rw [left_actual_force, hFl]
    rw [if_neg]
    simp only [abs_zero]
    exact not_lt.mpr hmf
  have har : right_actual_force d = 0 := by
    rw [right_actual_force, hFr]
    rw [if_neg]
    simp only [abs_zero]
    exact not_lt.mpr hmf
  refine ⟨?_, ?_, ?_⟩
  · simp [drivetrain_update, hal, har, hvx, hvz, hav, hfx, hfz, htq, ite_self]
  · simp [drivetrain_update, hal, har, hvx, hvz, hav, hfx, hfz, htq, ite_self]
  · simp only [drivetrain_update, hal, har, hvx, hvz, hav, hfx, hfz, htq]
    simp [ite_self]
    exact normalize_heading_eq_self hh1 hh2

/-- A drivetrain at rest (all defaults) whose heading is 4 rad, outside the
normalised range `(-PI, PI]`. -/
noncomputable def d_heading4 : Drivetrain := { drivetrain_init with heading := 4 }

/-- A drivetrain at rest whose scene friction coefficient is −100, making the
friction cap negative. -/
noncomputable def d_negfric : Drivetrain := { drivetrain_init with friction_coeff := -100 }

/-- C8 as stated is false: both concrete rest states satisfy the claim's
hypotheses (zero motor commands, zero external force/torque, zero
velocities), yet one `drivetrain_update` changes the pose — normalisation
rewrites the heading 4, and the negative friction cap propels the robot. -/
theorem drivetrain_neutrality_counterexample :
    (d_heading4.left_motor_pct = 0 ∧ d_heading4.right_motor_pct = 0 ∧
      d_heading4.ext_force_x = 0 ∧ d_heading4.ext_force_z = 0 ∧
      d_heading4.ext_torque = 0 ∧ d_heading4.vel_x = 0 ∧
      d_heading4.vel_z = 0 ∧ d_heading4.angular_vel = 0) ∧
    (drivetrain_update 1 1 d_heading4 (1 / 60)).heading ≠ d_heading4.heading ∧
    (d_negfric.left_motor_pct = 0 ∧ d_negfric.right_motor_pct = 0 ∧
      d_negfric.ext_force_x = 0 ∧ d_negfric.ext_force_z = 0 ∧
      d_negfric.ext_torque = 0 ∧ d_negfric.vel_x = 0 ∧
      d_negfric.vel_z = 0 ∧ d_negfric.angular_vel = 0) ∧
    (drivetrain_update 1 1 d_negfric (1 / 60)).pos_z ≠ d_negfric.pos_z := by
  have hnorm4 : normalize_heading 4 = 4 - 2 * PI := by
    rw [normalize_heading, wrap_down]
    rw [dif_pos (by norm_num [PI])]
    rw [wrap_down_eq_self (by norm_num [PI])]
    rw [wrap_up_eq_self (by norm_num [PI])]
  have hml4 : left_motor_force d_heading4 = 0 := by
    simp [left_motor_force, d_heading4, drivetrain_init, drivetrain_init_config]
  have hmr4 : right_motor_force d_heading4 = 0 := by
    simp [right_motor_force, d_heading4, drivetrain_init, drivetrain_init_config]
  have hal4 : left_actual_force d_heading4 = 0 := by
    rw [left_actual_force, hml4, if_neg]
    simp only [abs_zero, not_lt]
    norm_num [max_friction, d_heading4, drivetrain_init, drivetrain_init_config, DEFAULT_CONFIG]
  have har4 : right_actual_force d_heading4 = 0 := by
    rw [right_actual_force, hmr4, if_neg]
    simp only [abs_zero, not_lt]
    norm_num [max_friction, d_heading4, drivetrain_init, drivetrain_init_config, DEFAULT_CONFIG]
  have hmln : left_motor_force d_negfric = 0 := by
    simp [left_motor_force, d_negfric, drivetrain_init, drivetrain_init_config]
  have hmrn : right_motor_force d_negfric = 0 := by
    simp [right_motor_force, d_negfric, drivetrain_init, drivetrain_init_config]
  have hmfn : max_friction d_negfric = -150 := by
    norm_num [max_friction, d_negfric, drivetrain_init, drivetrain_init_config, DEFAULT_CONFIG]
  have haln : left_actual_force d_negfric = 150 := by
    rw [left_actual_force, hmln, hmfn]
    norm_num
  have harn : right_actual_force d_negfric = 150 := by
    rw [right_actual_force, hmrn, hmfn]
    norm_num
  refine ⟨by refine ⟨rfl, rfl, rfl, rfl, rfl, rfl, rfl, rfl⟩, ?_,
    by refine ⟨rfl, rfl, rfl, rfl, rfl, rfl, rfl, rfl⟩, ?_⟩
  · have hstate : d_heading4.vel_x = 0 ∧ d_heading4.vel_z = 0 ∧
        d_heading4.angular_vel = 0 ∧ d_heading4.ext_force_x = 0 ∧
        d_heading4.ext_force_z = 0 ∧ d_heading4.ext_torque = 0 ∧
        d_heading4.heading = 4 := ⟨rfl, rfl, rfl, rfl, rfl, rfl, rfl⟩
    obtain ⟨e1, e2, e3, e4, e5, e6, e7⟩ := hstate
    simp only [drivetrain_update, hal4, har4, e1, e2, e3, e4, e5, e6, e7]
    norm_num [ite_self, hnorm4, PI]
  · have hstate : d_negfric.vel_x = 0 ∧ d_negfric.vel_z = 0 ∧
        d_negfric.angular_vel = 0 ∧ d_negfric.ext_force_x = 0 ∧
        d_negfric.ext_force_z = 0 ∧ d_negfric.ext_torque = 0 ∧
        d_negfric.heading = 0 ∧ d_negfric.pos_z = 0 ∧
        d_negfric.left_motor_pct = 0 ∧ d_negfric.right_motor_pct = 0 ∧
        d_negfric.config.robot_mass = 3 ∧ d_negfric.config.moment_of_inertia = 0.13 ∧
        d_negfric.config.track_width = 10 :=
      ⟨rfl, rfl, rfl, rfl, rfl, rfl, rfl, rfl, rfl, rfl, rfl, rfl, rfl⟩
    obtain ⟨e1, e2, e3, e4, e5, e6, e7, e8, e9, e10, e11, e12, e13⟩ := hstate
    simp only [drivetrain_update, haln, harn, e1, e2, e3, e4, e5, e6, e7, e8, e9,
      e10, e11, e12, e13, Real.cos_zero, Real.sin_zero]
    norm_num [VEXIQ_LINEAR_DAMPING]
    rw [abs_of_nonneg (show (0 : ℝ) ≤ 196911 / 400 by norm_num)]
    norm_num

/-- A rest state with heading 1 rad (inside the normalised range). -/
noncomputable def d_rest1 : Drivetrain := { drivetrain_init with heading := 1 }

theorem drivetrain_neutrality_amended_witness :
    0 ≤ max_friction d_rest1 ∧ -PI ≤ d_rest1.heading ∧ d_rest1.heading ≤ PI ∧
      ((drivetrain_update 1 1 d_rest1 (1 / 60)).pos_x = d_rest1.pos_x ∧
       (drivetrain_update 1 1 d_rest1 (1 / 60)).pos_z = d_rest1.pos_z ∧
       (drivetrain_update 1 1 d_rest1 (1 / 60)).heading = d_rest1.heading) := by
  have hmf : 0 ≤ max_friction d_rest1 := by
    norm_num [max_friction, d_rest1, drivetrain_init, drivetrain_init_config, DEFAULT_CONFIG]
  have hh1 : -PI ≤ d_rest1.heading := by
    norm_num [d_rest1, drivetrain_init, drivetrain_init_config, PI]
  have hh2 : d_rest1.heading ≤ PI := by
    norm_num [d_rest1, drivetrain_init, drivetrain_init_config, PI]
  exact ⟨hmf, hh1, hh2,
    drivetrain_neutrality_amended 1 1 (1 / 60) d_rest1 rfl rfl rfl rfl rfl rfl rfl rfl
      hmf hh1 hh2⟩

/-! ## Collision response (`src/client/src/main.cpp` lines 978-1193)

The robot/part containers use nested lists in place of the C arrays indexed by
`parts_start_index + submodel_part_start[sm] + p` (the index arithmetic
encodes exactly this nesting; the defensive `idx >= parts.size()` skip cannot
fire in the nested representation).  The debug-visualization state writes
(`submodel_collision_state`, `part.collision_state`) are not represented: no
claim reads them and they do not affect geometry or dynamics. -/

/-- `mat3_rotation_y` (obb.cpp lines 35-45). -/
noncomputable def mat3_rotation_y (angle_rad : ℝ) : Mat3 ℝ :=
  ⟨Real.cos angle_rad, 0, Real.sin angle_rad,
   0, 1, 0,
   -Real.sin angle_rad, 0, Real.cos angle_rad⟩

/-- A part as the collision response sees it (`PartInstance`: a possibly-null
mesh pointer and the local OBB). -/
structure PartCol where
  has_mesh : Bool
  local_obb : OBB ℝ

/-- A submodel: its OBB and its slice of parts. -/
structure SubmodelCol where
  obb : OBB ℝ
  parts : List PartCol

/-- `RobotInstance`, restricted to the fields collision response reads and
writes (main.cpp lines 317-346). -/
structure RobotM where
  drivetrain : Drivetrain
  offset0 : ℝ
  offset2 : ℝ
  ground_offset : ℝ
  rotation_y : ℝ
  submodels : List SubmodelCol

/-- `transform_obb_to_world` (main.cpp lines 753-763). -/
noncomputable def transform_obb_to_world (local_obb : OBB ℝ) (robot : RobotM) : OBB ℝ :=
  obb_transform_matrix local_obb ⟨robot.offset0, robot.ground_offset, robot.offset2⟩
    (mat3_rotation_y robot.rotation_y)

/-- `COLLISION_TOLERANCE` (main.cpp line 984). -/
noncomputable def COLLISION_TOLERANCE : ℝ := 0.15

/-- The four wall AABBs with their indices (main.cpp lines 994-1002). -/
noncomputable def collision_walls (fhw fhd : ℝ) : List (Nat × AABB ℝ) :=
  [(0, ⟨⟨-fhw - 1, 0, -fhd⟩, ⟨-fhw, 10, fhd⟩⟩),
   (1, ⟨⟨fhw, 0, -fhd⟩, ⟨fhw + 1, 10, fhd⟩⟩),
   (2, ⟨⟨-fhw, 0, -fhd - 1⟩, ⟨fhw, 10, -fhd⟩⟩),
   (3, ⟨⟨-fhw, 0, fhd⟩, ⟨fhw, 10, fhd + 1⟩⟩)]

/-- The dead-zone correction: `if (penetration > COLLISION_TOLERANCE)
push = penetration - COLLISION_TOLERANCE` with push otherwise 0, as computed
in both `apply_wall_collision_response` (lines 1046, 1049, 1052, 1055) and
`apply_robot_collision_response` (lines 1136-1137). -/
noncomputable def deadzone_push (pen : ℝ) : ℝ :=
  if pen > COLLISION_TOLERANCE then pen - COLLISION_TOLERANCE else 0

/-- The per-part, per-wall penetration of lines 1044-1056 (0 when the part's
enclosing AABB does not cross the wall plane). -/
noncomputable def wall_part_penetration (w : Nat) (part_aabb : AABB ℝ) (fhw fhd : ℝ) : ℝ :=
  if w = 0 ∧ part_aabb.min.x < -fhw then -fhw - part_aabb.min.x
  else if w = 1 ∧ part_aabb.max.x > fhw then part_aabb.max.x - fhw
  else if w = 2 ∧ part_aabb.min.z < -fhd then -fhd - part_aabb.min.z
  else if w = 3 ∧ part_aabb.max.z > fhd then part_aabb.max.z - fhd
  else 0

/-- The per-part, per-wall signed push `(push_x, push_z)` of lines 1042-1056. -/
noncomputable def wall_part_push (w : Nat) (part_aabb : AABB ℝ) (fhw fhd : ℝ) : ℝ × ℝ :=
  if w = 0 ∧ part_aabb.min.x < -fhw then (deadzone_push (-fhw - part_aabb.min.x), 0)
  else if w = 1 ∧ part_aabb.max.x > fhw then (-deadzone_push (part_aabb.max.x - fhw), 0)
  else if w = 2 ∧ part_aabb.min.z < -fhd then (0, deadzone_push (-fhd - part_aabb.min.z))
  else if w = 3 ∧ part_aabb.max.z > fhd then (0, -deadzone_push (part_aabb.max.z - fhd))
  else (0, 0)

/-- The max-penetration tracking of lines 1058-1060. -/
noncomputable def push_track_max (acc p : ℝ × ℝ) : ℝ × ℝ :=
  (if |p.1| > |acc.1| then p.1 else acc.1, if |p.2| > |acc.2| then p.2 else acc.2)

/-- The submodel → wall → part scan of `apply_wall_collision_response`
(lines 1004-1063), producing `(max_push_x, max_push_z)`. -/
noncomputable def wall_scan (robot : RobotM) (fhw fhd : ℝ) : ℝ × ℝ :=
  robot.submodels.foldl (fun acc sm =>
    let world_sm := transform_obb_to_world sm.obb robot
    (collision_walls fhw fhd).foldl (fun acc2 wv =>
      if obb_intersects_aabb world_sm wv.2 then
        sm.parts.foldl (fun acc3 part =>
          if part.has_mesh then
            let world_part := transform_obb_to_world part.local_obb robot
            if obb_intersects_aabb world_part wv.2 then
              push_track_max acc3
                (wall_part_push wv.1 (obb_get_enclosing_aabb world_part) fhw fhd)
            else acc3
          else acc3) acc2
      else acc2) acc) (0, 0)

/-- `apply_wall_collision_response` (main.cpp lines 988-1088): apply the
maximum push to the drivetrain pose and render offset, zero the velocity into
the wall, and — only when the push length exceeds 0.001 — set the contact
constraint. -/
noncomputable def apply_wall_collision_response (robot : RobotM) (fhw fhd : ℝ) : RobotM :=
  let m := wall_scan robot fhw fhd
  if m.1 ≠ 0 ∨ m.2 ≠ 0 then
    let d0 := robot.drivetrain
    let d1 := { d0 with pos_x := d0.pos_x + m.1, pos_z := d0.pos_z + m.2 }
    let d2 := if m.1 ≠ 0 then { d1 with vel_x := 0 } else d1
    let d3 := if m.2 ≠ 0 then { d2 with vel_z := 0 } else d2
    let push_len := Real.sqrt (m.1 * m.1 + m.2 * m.2)
    let d4 := if push_len > 0.001 then
        { d3 with
          in_contact := true
          contact_nx := m.1 / push_len
          contact_nz := m.2 / push_len }
      else d3
    { robot with drivetrain := d4, offset0 := d1.pos_x, offset2 := d1.pos_z }
  else robot

/-- The enclosing-AABB overlap penetration of a submodel pair (lines
1118-1134): `min(overlap_x, overlap_z)` when both overlaps are positive. -/
noncomputable def pair_penetration (wa wb : OBB ℝ) : ℝ :=
  let aabb_a := obb_get_enclosing_aabb wa
  let aabb_b := obb_get_enclosing_aabb wb
  min (min aabb_a.max.x aabb_b.max.x - max aabb_a.min.x aabb_b.min.x)
    (min aabb_a.max.z aabb_b.max.z - max aabb_a.min.z aabb_b.min.z)

/-- One submodel-pair step of `apply_robot_collision_response`'s accumulation
loop (lines 1103-1147), acting on `((total_push_x, total_push_z),
collision_count)`. -/
noncomputable def pair_contribution (wa wb : OBB ℝ) (acc : (ℝ × ℝ) × ℕ) :
    (ℝ × ℝ) × ℕ :=
  if obb_intersects_obb wa wb then
    let aabb_a := obb_get_enclosing_aabb wa
    let aabb_b := obb_get_enclosing_aabb wb
    let overlap_x := min aabb_a.max.x aabb_b.max.x - max aabb_a.min.x aabb_b.min.x
    let overlap_z := min aabb_a.max.z aabb_b.max.z - max aabb_a.min.z aabb_b.min.z
    if overlap_x > 0 ∧ overlap_z > 0 then
      let center_a_x := (aabb_a.min.x + aabb_a.max.x) * (1 / 2)
      let center_a_z := (aabb_a.min.z + aabb_a.max.z) * (1 / 2)
      let center_b_x := (aabb_b.min.x + aabb_b.max.x) * (1 / 2)
      let center_b_z := (aabb_b.min.z + aabb_b.max.z) * (1 / 2)
      let penetration := min overlap_x overlap_z
      if penetration > COLLISION_TOLERANCE then
        let push := penetration - COLLISION_TOLERANCE
        if overlap_x < overlap_z then
          ((acc.1.1 + (if center_a_x < center_b_x then -push else push), acc.1.2),
            acc.2 + 1)
        else
          ((acc.1.1, acc.1.2 + (if center_a_z < center_b_z then -push else push)),
            acc.2 + 1)
      else acc
    else acc
  else acc

/-- The double submodel loop of `apply_robot_collision_response`. -/
noncomputable def robot_pair_scan (ra rb : RobotM) : (ℝ × ℝ) × ℕ :=
  ra.submodels.foldl (fun acc sm_a =>
    let wa := transform_obb_to_world sm_a.obb ra
    rb.submodels.foldl (fun acc2 sm_b =>
      pair_contribution wa (transform_obb_to_world sm_b.obb rb) acc2) acc)
    ((0, 0), 0)

/-- `apply_robot_collision_response` (main.cpp lines 1091-1193): averaged push
split 50/50, velocity-into-push removal, contact constraints for both robots
when the push length exceeds 0.001. -/
noncomputable def apply_robot_collision_response (ra rb : RobotM) : RobotM × RobotM :=
  let s := robot_pair_scan ra rb
  if s.2 > 0 then
    let push_x := s.1.1 / (s.2 : ℝ) * (1 / 2)
    let push_z := s.1.2 / (s.2 : ℝ) * (1 / 2)
    let da1 := { ra.drivetrain with
      pos_x := ra.drivetrain.pos_x + push_x
      pos_z := ra.drivetrain.pos_z + push_z }
    let db1 := { rb.drivetrain with
      pos_x := rb.drivetrain.pos_x - push_x
      pos_z := rb.drivetrain.pos_z - push_z }
    let push_len := Real.sqrt (push_x * push_x + push_z * push_z)
    if push_len > 0.001 then
      let nx := push_x / push_len
      let nz := push_z / push_len
      let vel_into_a := da1.vel_x * nx + da1.vel_z * nz
      let da2 := if vel_into_a < 0 then
          { da1 with
            vel_x := da1.vel_x - vel_into_a * nx
            vel_z := da1.vel_z - vel_into_a * nz }
        else da1
      let vel_into_b := db1.vel_x * (-nx) + db1.vel_z * (-nz)
      let db2 := if vel_into_b < 0 then
          { db1 with
            vel_x := db1.vel_x - vel_into_b * (-nx)
            vel_z := db1.vel_z - vel_into_b * (-nz) }
        else db1
      let da3 := { da2 with in_contact := true, contact_nx := nx, contact_nz := nz }
      let db3 := { db2 with in_contact := true, contact_nx := -nx, contact_nz := -nz }
      ({ ra with drivetrain := da3, offset0 := da1.pos_x, offset2 := da1.pos_z },
       { rb with drivetrain := db3, offset0 := db1.pos_x, offset2 := db1.pos_z })
    else
      ({ ra with drivetrain := da1, offset0 := da1.pos_x, offset2 := da1.pos_z },
       { rb with drivetrain := db1, offset0 := db1.pos_x, offset2 := db1.pos_z })
  else (ra, rb)

theorem deadzone_push_of_le {pen : ℝ} (h : pen ≤ COLLISION_TOLERANCE) :
    deadzone_push pen = 0 := by
  rw [deadzone_push, if_neg (not_lt.mpr h)]

theorem wall_part_push_zero (w : Nat) (aabb : AABB ℝ) (fhw fhd : ℝ)
    (h : wall_part_penetration w aabb fhw fhd ≤ COLLISION_TOLERANCE) :
    wall_part_push w aabb fhw fhd = (0, 0) := by
  unfold wall_part_penetration at h
  unfold wall_part_push
  split_ifs at h ⊢ with h1 h2 h3 h4
  · rw [deadzone_push_of_le h]
  · rw [deadzone_push_of_le h]; norm_num
  · rw [deadzone_push_of_le h]
  · rw [deadzone_push_of_le h]; norm_num
  · rfl

/-- A fold whose step fixes the accumulator on every list element fixes it on
the whole list. -/
theorem foldl_mem_fixed {α β : Type} (f : β → α → β) (b : β) (l : List α)
    (h : ∀ x ∈ l, f b x = b) : l.foldl f b = b := by
  induction l with
  | nil => rfl
  | cons x xs ih =>
    rw [List.foldl_cons, h x (List.mem_cons_self x xs)]
    exact ih fun y hy => h y (List.mem_cons_of_mem x hy)

theorem push_track_max_zero : push_track_max (0, 0) (0, 0) = ((0 : ℝ), (0 : ℝ)) := by
  simp [push_track_max]

theorem wall_scan_zero (robot : RobotM) (fhw fhd : ℝ)
    (h : ∀ sm ∈ robot.submodels, ∀ p ∈ sm.parts, ∀ wv ∈ collision_walls fhw fhd,
      wall_part_penetration wv.1
          (obb_get_enclosing_aabb (transform_obb_to_world p.local_obb robot)) fhw fhd ≤
        COLLISION_TOLERANCE) :
    wall_scan robot fhw fhd = (0, 0) := by
  unfold wall_scan
  apply foldl_mem_fixed
  intro sm hsm
  apply foldl_mem_fixed
  intro wv hwv
  split_ifs with hint
  · apply foldl_mem_fixed
    intro p hp
    dsimp only
    split_ifs with hmesh hint2
    · rw [wall_part_push_zero _ _ _ _ (h sm hsm p hp wv hwv)]
      exact push_track_max_zero
    · rfl
    · rfl
  · rfl

theorem pair_contribution_fixed (wa wb : OBB ℝ) (acc : (ℝ × ℝ) × ℕ)
    (h : pair_penetration wa wb ≤ COLLISION_TOLERANCE) :
    pair_contribution wa wb acc = acc := by
  have h' := h
  unfold pair_penetration at h'
  dsimp only at h'
  unfold pair_contribution
  dsimp only
  rw [if_neg (not_lt.mpr h')]
  simp [ite_self]

theorem robot_pair_scan_zero (ra rb : RobotM)
    (h : ∀ sa ∈ ra.submodels, ∀ sb ∈ rb.submodels,
      pair_penetration (transform_obb_to_world sa.obb ra)
          (transform_obb_to_world sb.obb rb) ≤ COLLISION_TOLERANCE) :
    robot_pair_scan ra rb = ((0, 0), 0) := by
  unfold robot_pair_scan
  apply foldl_mem_fixed
  intro sa hsa
  apply foldl_mem_fixed
  intro sb hsb
  exact pair_contribution_fixed _ _ _ (h sa hsa sb hsb)

/-! ### Claim C4: collision dead-zone -/

/-- **C4.** Collision response applies zero positional correction for any
penetration at or below the 0.15 in dead-zone and corrects only by the excess
above it: 0.14 in → zero, 0.16 in → exactly 0.01 in.  This holds for the wall
response (per-part pushes, and the whole response is the identity when every
penetration is within the dead-zone) and for the robot-robot response
(submodel-pair contributions, and the whole response is the identity when
every pair penetration is within the dead-zone) alike. -/
theorem collision_deadzone :
    (∀ pen : ℝ, pen ≤ 0.15 → deadzone_push pen = 0) ∧
    (∀ pen : ℝ, pen > 0.15 → deadzone_push pen = pen - 0.15) ∧
    deadzone_push 0.14 = 0 ∧ deadzone_push 0.16 = 0.01 ∧
    (∀ (w : Nat) (aabb : AABB ℝ) (fhw fhd : ℝ),
      wall_part_penetration w aabb fhw fhd ≤ 0.15 →
        wall_part_push w aabb fhw fhd = (0, 0)) ∧
    (∀ (fhw fhd y z : ℝ) (vmax : Vec3 ℝ),
      wall_part_push 0 ⟨⟨-fhw - 0.16, y, z⟩, vmax⟩ fhw fhd = (0.01, 0)) ∧
    (∀ (robot : RobotM) (fhw fhd : ℝ),
      (∀ sm ∈ robot.submodels, ∀ p ∈ sm.parts, ∀ wv ∈ collision_walls fhw fhd,
        wall_part_penetration wv.1
            (obb_get_enclosing_aabb (transform_obb_to_world p.local_obb robot)) fhw fhd ≤
          0.15) →
      apply_wall_collision_response robot fhw fhd = robot) ∧
    (∀ (wa wb : OBB ℝ) (acc : (ℝ × ℝ) × ℕ),
      pair_penetration wa wb ≤ 0.15 → pair_contribution wa wb acc = acc) ∧
    (∀ (ra rb : RobotM),
      (∀ sa ∈ ra.submodels, ∀ sb ∈ rb.submodels,
        pair_penetration (transform_obb_to_world sa.obb ra)
            (transform_obb_to_world sb.obb rb) ≤ 0.15) →
      apply_robot_collision_response ra rb = (ra, rb)) := by
  have htol : COLLISION_TOLERANCE = (0.15 : ℝ) := rfl
  refine ⟨?_, ?_, ?_, ?_, ?_, ?_, ?_, ?_, ?_⟩
  · intro pen h
    exact deadzone_push_of_le (by rw [htol]; exact h)
  · intro pen h
    rw [deadzone_push, if_pos (by rw [htol]; exact h), htol]
  · exact deadzone_push_of_le (by norm_num [COLLISION_TOLERANCE])
  · rw [deadzone_push, if_pos (by norm_num [COLLISION_TOLERANCE])]
    norm_num [COLLISION_TOLERANCE]
  · intro w aabb fhw fhd h
    exact wall_part_push_zero w aabb fhw fhd (by rw [htol]; exact h)
  · intro fhw fhd y z vmax
    rw [wall_part_push, if_pos (by constructor <;> norm_num)]
    rw [deadzone_push, if_pos (by norm_num [COLLISION_TOLERANCE])]
    norm_num [COLLISION_TOLERANCE]
  · intro robot fhw fhd h
    have hz := wall_scan_zero robot fhw fhd (fun sm hsm p hp wv hwv => by
      rw [htol]; exact h sm hsm p hp wv hwv)
    unfold apply_wall_collision_response
    rw [hz]
    norm_num
  · intro wa wb acc h
    exact pair_contribution_fixed wa wb acc (by rw [htol]; exact h)
  · intro ra rb h
    have hz := robot_pair_scan_zero ra rb (fun sa hsa sb hsb => by
      rw [htol]; exact h sa hsa sb hsb)
    unfold apply_robot_collision_response
    rw [hz]
    norm_num

/-- A 2×2×2 box whose enclosing AABB reaches x = 48.14, i.e. 0.14 in beyond
the +X wall of a 96×72 in field. -/
noncomputable def obb_free : OBB ℝ := ⟨⟨47.14, 5, 0⟩, ⟨1, 1, 1⟩, mat3_id⟩

/-- A robot at the origin (no rotation) with one submodel holding one part,
penetrating the +X wall by 0.14 in — inside the dead-zone. -/
noncomputable def r_free : RobotM :=
  { drivetrain := drivetrain_init, offset0 := 0, offset2 := 0, ground_offset := 0,
    rotation_y := 0,
    submodels := [{ obb := obb_free, parts := [{ has_mesh := true, local_obb := obb_free }] }] }

theorem transform_obb_free : transform_obb_to_world obb_free r_free = obb_free := by
  simp only [transform_obb_to_world, obb_transform_matrix, mat3_rotation_y, r_free,
    obb_free, mat3_multiply, mat3_transform_point, vec3_add, mat3_id,
    Real.cos_zero, Real.sin_zero]
  refine OBB.ext ?_ rfl ?_ <;> (ext <;> norm_num)

theorem enclosing_obb_free :
    obb_get_enclosing_aabb obb_free = ⟨⟨46.14, 4, -1⟩, ⟨48.14, 6, 1⟩⟩ := by
  simp only [obb_get_enclosing_aabb, obb_get_corners, obb_free, mat3_transform_point,
    vec3_add, mat3_id, List.map_cons, List.map_nil, List.foldl, List.headI, List.tail]
  refine AABB.ext ?_ ?_ <;> (ext <;> norm_num [min_def, max_def])

theorem collision_deadzone_witness :
    deadzone_push 0.1 = 0 ∧
    ((0.17 : ℝ) > 0.15 ∧ deadzone_push 0.17 = 0.17 - 0.15) ∧
    (wall_part_penetration 2 ⟨⟨0, 0, -36.1⟩, ⟨1, 10, -35⟩⟩ 48 36 ≤ 0.15 ∧
      wall_part_push 2 ⟨⟨0, 0, -36.1⟩, ⟨1, 10, -35⟩⟩ 48 36 = (0, 0)) ∧
    apply_wall_collision_response r_free 48 36 = r_free ∧
    (pair_penetration ⟨⟨0, 0, 0⟩, ⟨1, 1, 1⟩, mat3_id⟩ ⟨⟨10, 0, 0⟩, ⟨1, 1, 1⟩, mat3_id⟩ ≤ 0.15 ∧
      pair_contribution ⟨⟨0, 0, 0⟩, ⟨1, 1, 1⟩, mat3_id⟩ ⟨⟨10, 0, 0⟩, ⟨1, 1, 1⟩, mat3_id⟩
        ((0, 0), 0) = ((0, 0), 0)) := by
  have hc := collision_deadzone
  have hpen2 : wall_part_penetration 2 ⟨⟨0, 0, -36.1⟩, ⟨1, 10, -35⟩⟩ 48 36 ≤ (0.15 : ℝ) := by
    norm_num [wall_part_penetration]
  have hpenpair : pair_penetration ⟨⟨0, 0, 0⟩, ⟨1, 1, 1⟩, mat3_id⟩
      ⟨⟨10, 0, 0⟩, ⟨1, 1, 1⟩, mat3_id⟩ ≤ (0.15 : ℝ) := by
    have e1 : obb_get_enclosing_aabb (⟨⟨0, 0, 0⟩, ⟨1, 1, 1⟩, mat3_id⟩ : OBB ℝ) =
        ⟨⟨-1, -1, -1⟩, ⟨1, 1, 1⟩⟩ := by
      simp only [obb_get_enclosing_aabb, obb_get_corners, mat3_transform_point,
        vec3_add, mat3_id, List.map_cons, List.map_nil, List.foldl, List.headI, List.tail]
      refine AABB.ext ?_ ?_ <;> (ext <;> norm_num [min_def, max_def])
    have e2 : obb_get_enclosing_aabb (⟨⟨10, 0, 0⟩, ⟨1, 1, 1⟩, mat3_id⟩ : OBB ℝ) =
        ⟨⟨9, -1, -1⟩, ⟨11, 1, 1⟩⟩ := by
      simp only [obb_get_enclosing_aabb, obb_get_corners, mat3_transform_point,
        vec3_add, mat3_id, List.map_cons, List.map_nil, List.foldl, List.headI, List.tail]
      refine AABB.ext ?_ ?_ <;> (ext <;> norm_num [min_def, max_def])
    rw [pair_penetration, e1, e2]
    norm_num [min_def, max_def]
  have hfree : ∀ sm ∈ r_free.submodels, ∀ p ∈ sm.parts,
      ∀ wv ∈ collision_walls (48 : ℝ) 36,
      wall_part_penetration wv.1
          (obb_get_enclosing_aabb (transform_obb_to_world p.local_obb r_free)) 48 36 ≤
        (0.15 : ℝ) := by
    intro sm hsm p hp wv hwv
    simp only [r_free, List.mem_singleton] at hsm
    subst hsm
    simp only [List.mem_singleton] at hp
    subst hp
    simp only [transform_obb_free, enclosing_obb_free]
    simp only [collision_walls, List.mem_cons, List.not_mem_nil, or_false] at hwv
    rcases hwv with rfl | rfl | rfl | rfl <;> norm_num [wall_part_penetration]
  exact ⟨hc.1 0.1 (by norm_num),
    ⟨by norm_num, hc.2.1 0.17 (by norm_num)⟩,
    ⟨hpen2, hc.2.2.2.2.1 2 _ 48 36 hpen2⟩,
    hc.2.2.2.2.2.2.1 r_free 48 36 hfree,
    ⟨hpenpair, hc.2.2.2.2.2.2.2.1 _ _ _ hpenpair⟩⟩

/-- A 2×2×2 box centred at `(cx, 5, 0)` in robot-local space. -/
noncomputable def obb_at (cx : ℝ) : OBB ℝ := ⟨⟨cx, 5, 0⟩, ⟨1, 1, 1⟩, mat3_id⟩

/-- A one-submodel, one-part robot at the origin with no rotation. -/
noncomputable def r_at (cx : ℝ) : RobotM :=
  { drivetrain := drivetrain_init, offset0 := 0, offset2 := 0, ground_offset := 0,
    rotation_y := 0,
    submodels := [{ obb := obb_at cx, parts := [{ has_mesh := true, local_obb := obb_at cx }] }] }

theorem transform_obb_at (cx : ℝ) :
    transform_obb_to_world (obb_at cx) (r_at cx) = obb_at cx := by
  simp only [transform_obb_to_world, obb_transform_matrix, mat3_rotation_y, r_at,
    obb_at, mat3_multiply, mat3_transform_point, vec3_add, mat3_id,
    Real.cos_zero, Real.sin_zero]
  refine OBB.ext ?_ rfl ?_ <;> (ext <;> norm_num)

theorem enclosing_obb_at (cx : ℝ) :
    obb_get_enclosing_aabb (obb_at cx) = ⟨⟨cx - 1, 4, -1⟩, ⟨cx + 1, 6, 1⟩⟩ := by
  simp only [obb_get_enclosing_aabb, obb_get_corners, obb_at, mat3_transform_point,
    vec3_add, mat3_id, List.map_cons, List.map_nil, List.foldl, List.headI, List.tail]
  refine AABB.ext ?_ ?_ <;> (ext <;> simp [min_def, max_def]) <;> linarith

theorem r_at_submodels (cx : ℝ) :
    (r_at cx).submodels =
      [{ obb := obb_at cx, parts := [{ has_mesh := true, local_obb := obb_at cx }] }] := rfl

set_option maxHeartbeats 800000 in
theorem gate_small_0 :
    ¬ obb_intersects_aabb (obb_at (47.1505 : ℝ)) ⟨⟨-48 - 1, 0, -36⟩, ⟨-48, 10, 36⟩⟩ := by
  norm_num [obb_intersects_aabb, obb_intersects_obb, vec3_sub, vec3_dot,
    colX, colY, colZ, mat3_id, obb_at, SAT_EPSILON, abs_of_nonneg, abs_of_nonpos]

set_option maxHeartbeats 800000 in
theorem gate_small_1 :
    obb_intersects_aabb (obb_at (47.1505 : ℝ)) ⟨⟨48, 0, -36⟩, ⟨48 + 1, 10, 36⟩⟩ := by
  norm_num [obb_intersects_aabb, obb_intersects_obb, vec3_sub, vec3_dot,
    colX, colY, colZ, mat3_id, obb_at, SAT_EPSILON, abs_of_nonneg, abs_of_nonpos]

set_option maxHeartbeats 800000 in
theorem gate_small_2 :
    ¬ obb_intersects_aabb (obb_at (47.1505 : ℝ)) ⟨⟨-48, 0, -36 - 1⟩, ⟨48, 10, -36⟩⟩ := by
  norm_num [obb_intersects_aabb, obb_intersects_obb, vec3_sub, vec3_dot,
    colX, colY, colZ, mat3_id, obb_at, SAT_EPSILON, abs_of_nonneg, abs_of_nonpos]

set_option maxHeartbeats 800000 in
theorem gate_small_3 :
    ¬ obb_intersects_aabb (obb_at (47.1505 : ℝ)) ⟨⟨-48, 0, 36⟩, ⟨48, 10, 36 + 1⟩⟩ := by
  norm_num [obb_intersects_aabb, obb_intersects_obb, vec3_sub, vec3_dot,
    colX, colY, colZ, mat3_id, obb_at, SAT_EPSILON, abs_of_nonneg, abs_of_nonpos]

set_option maxHeartbeats 800000 in
theorem gate_push_0 :
    ¬ obb_intersects_aabb (obb_at (50 : ℝ)) ⟨⟨-48 - 1, 0, -36⟩, ⟨-48, 10, 36⟩⟩ := by
  norm_num [obb_intersects_aabb, obb_intersects_obb, vec3_sub, vec3_dot,
    colX, colY, colZ, mat3_id, obb_at, SAT_EPSILON, abs_of_nonneg, abs_of_nonpos]

set_option maxHeartbeats 800000 in
theorem gate_push_1 :
    obb_intersects_aabb (obb_at (50 : ℝ)) ⟨⟨48, 0, -36⟩, ⟨48 + 1, 10, 36⟩⟩ := by
  norm_num [obb_intersects_aabb, obb_intersects_obb, vec3_sub, vec3_dot,
    colX, colY, colZ, mat3_id, obb_at, SAT_EPSILON, abs_of_nonneg, abs_of_nonpos]

set_option maxHeartbeats 800000 in
theorem gate_push_2 :
    ¬ obb_intersects_aabb (obb_at (50 : ℝ)) ⟨⟨-48, 0, -36 - 1⟩, ⟨48, 10, -36⟩⟩ := by
  norm_num [obb_intersects_aabb, obb_intersects_obb, vec3_sub, vec3_dot,
    colX, colY, colZ, mat3_id, obb_at, SAT_EPSILON, abs_of_nonneg, abs_of_nonpos]

set_option maxHeartbeats 800000 in
theorem gate_push_3 :
    ¬ obb_intersects_aabb (obb_at (50 : ℝ)) ⟨⟨-48, 0, 36⟩, ⟨48, 10, 36 + 1⟩⟩ := by
  norm_num [obb_intersects_aabb, obb_intersects_obb, vec3_sub, vec3_dot,
    colX, colY, colZ, mat3_id, obb_at, SAT_EPSILON, abs_of_nonneg, abs_of_nonpos]

set_option maxHeartbeats 800000 in
theorem wall_scan_small :
    wall_scan (r_at (47.1505 : ℝ)) 48 36 = (-(0.0005 : ℝ), 0) := by
  simp only [wall_scan, r_at_submodels, collision_walls, List.foldl,
    transform_obb_at, enclosing_obb_at]
  simp [gate_small_0, gate_small_1, gate_small_2, gate_small_3]
  norm_num [wall_part_push, deadzone_push, COLLISION_TOLERANCE, push_track_max,
    abs_of_nonneg, abs_of_nonpos, Prod.ext_iff]

set_option maxHeartbeats 800000 in
theorem wall_scan_push :
    wall_scan (r_at (50 : ℝ)) 48 36 = (-(2.85 : ℝ), 0) := by
  simp only [wall_scan, r_at_submodels, collision_walls, List.foldl,
    transform_obb_at, enclosing_obb_at]
  simp [gate_push_0, gate_push_1, gate_push_2, gate_push_3]
  norm_num [wall_part_push, deadzone_push, COLLISION_TOLERANCE, push_track_max,
    abs_of_nonneg, abs_of_nonpos, Prod.ext_iff]

/-- **C2 (amended).**  The spec claims that whenever collision response
corrects a robot's position it sets `in_contact` and stores the contact
normal, and that the next `drivetrain_update` attenuates motion into the
surface.  What the code does: (i) `apply_wall_collision_response` corrects
the pose by the scan push whenever it is non-zero, but sets the contact
constraint only when the push length exceeds `0.001`; and (ii)
`drivetrain_update` never reads `in_contact`/`contact_nx`/`contact_nz`
(drivetrain.h does not even declare them), so the update commutes with
overwriting them — no attenuation of motion into the surface occurs. -/
theorem wall_contact_constraint_amended :
    (∀ (robot : RobotM) (fhw fhd mx mz : ℝ),
      wall_scan robot fhw fhd = (mx, mz) →
      (mx ≠ 0 ∨ mz ≠ 0) →
      Real.sqrt (mx * mx + mz * mz) > 0.001 →
      ((apply_wall_collision_response robot fhw fhd).drivetrain.pos_x =
          robot.drivetrain.pos_x + mx ∧
        (apply_wall_collision_response robot fhw fhd).drivetrain.pos_z =
          robot.drivetrain.pos_z + mz ∧
        (apply_wall_collision_response robot fhw fhd).drivetrain.in_contact = true ∧
        (apply_wall_collision_response robot fhw fhd).drivetrain.contact_nx =
          mx / Real.sqrt (mx * mx + mz * mz) ∧
        (apply_wall_collision_response robot fhw fhd).drivetrain.contact_nz =
          mz / Real.sqrt (mx * mx + mz * mz))) ∧
    (∀ (F T : ℝ) (d : Drivetrain) (dt_sec : ℝ) (b : Bool) (nx nz : ℝ),
      drivetrain_update F T
          { d with in_contact := b, contact_nx := nx, contact_nz := nz } dt_sec =
        { drivetrain_update F T d dt_sec with
            in_contact := b
            contact_nx := nx
            contact_nz := nz }) := by
  constructor
  · intro robot fhw fhd mx mz hscan hnz hlen
    unfold apply_wall_collision_response
    rw [hscan]
    dsimp only
    rw [if_pos hnz]
    dsimp only
    rw [if_pos hlen]
    split_ifs <;> exact ⟨rfl, rfl, rfl, rfl, rfl⟩
  · intro F T d dt_sec b nx nz
    cases d
    rfl

/-- **C2 counterexample.**  A robot penetrating the `+X` wall by `0.1505`
(just above the dead-zone) gets a positional correction of `-0.0005`, whose
length is below the `0.001` contact threshold: the position changes but
`in_contact` is left `false`, refuting "whenever collision response corrects
a robot's position, it sets the robot's drivetrain `in_contact` flag". -/
theorem wall_contact_constraint_counterexample :
    (apply_wall_collision_response (r_at 47.1505) 48 36).drivetrain.pos_x ≠
      (r_at 47.1505).drivetrain.pos_x ∧
    (apply_wall_collision_response (r_at 47.1505) 48 36).drivetrain.in_contact = false := by
  have hscan := wall_scan_small
  unfold apply_wall_collision_response
  rw [hscan]
  dsimp only
  rw [if_pos (show -(0.0005 : ℝ) ≠ 0 ∨ (0 : ℝ) ≠ 0 from Or.inl (by norm_num))]
  have hs : Real.sqrt (-(0.0005 : ℝ) * -(0.0005) + 0 * 0) = 0.0005 := by
    rw [show (-(0.0005 : ℝ) * -(0.0005) + 0 * 0) = 0.0005 ^ 2 by norm_num,
      Real.sqrt_sq (by norm_num)]
  rw [hs, if_neg (show ¬((0.0005 : ℝ) > 0.001) by norm_num),
    if_pos (show -(0.0005 : ℝ) ≠ 0 by norm_num),
    if_neg (show ¬((0 : ℝ) ≠ 0) by norm_num)]
  constructor
  · show (r_at 47.1505).drivetrain.pos_x + -(0.0005) ≠ (r_at 47.1505).drivetrain.pos_x
    norm_num [r_at, drivetrain_init, drivetrain_init_config]
  · rfl

theorem wall_contact_constraint_amended_witness :
    (wall_scan (r_at 50) 48 36 = (-(2.85 : ℝ), 0) ∧
      (-(2.85 : ℝ) ≠ 0 ∨ (0 : ℝ) ≠ 0) ∧
      Real.sqrt (-(2.85 : ℝ) * -(2.85) + 0 * 0) > 0.001) ∧
    ((apply_wall_collision_response (r_at 50) 48 36).drivetrain.in_contact = true ∧
      (apply_wall_collision_response (r_at 50) 48 36).drivetrain.pos_x =
        (r_at 50).drivetrain.pos_x + -(2.85 : ℝ)) ∧
    drivetrain_update 1 1
        { drivetrain_init with in_contact := true, contact_nx := -1, contact_nz := 0 }
        (1 / 60) =
      { drivetrain_update 1 1 drivetrain_init (1 / 60) with
          in_contact := true
          contact_nx := -1
          contact_nz := 0 } := by
  have hlen : Real.sqrt (-(2.85 : ℝ) * -(2.85) + 0 * 0) > 0.001 := by
    rw [show (-(2.85 : ℝ) * -(2.85) + 0 * 0) = 2.85 ^ 2 by norm_num,
      Real.sqrt_sq (by norm_num)]
    norm_num
  have h := wall_contact_constraint_amended
  have hi := h.1 (r_at 50) 48 36 (-(2.85)) 0 wall_scan_push (Or.inl (by norm_num)) hlen
  exact ⟨⟨wall_scan_push, Or.inl (by norm_num), hlen⟩, ⟨hi.2.2.1, hi.1⟩,
    h.2 1 1 drivetrain_init (1 / 60) true (-1) 0⟩

/-! ## Frame-loop motor resolution (`src/client/src/main.cpp` lines 1886-1901)

The spec's orchestrator resolves each robot's `(left_pct, right_pct)` from
IPC state or a keyboard fallback before the drivetrain integrates.  In the
code, lines 1886-1888 are only the comment "Motor control is now driven by
IQPython via IPC / TODO: Read motor states from PythonBridge and apply to
drivetrain / For now, motors are at rest (will be wired up in next step)",
and Step 1 (lines 1899-1901) calls `drivetrain_update` directly;
`drivetrain_set_motors` has no caller anywhere in `main.cpp`. -/

/-- The per-frame inputs the spec says the orchestrator consults: the IPC
motor state and the keyboard fallback keys. -/
structure FrameInputs where
  ipc_left_pct : ℝ
  ipc_right_pct : ℝ
  key_w : Bool
  key_s : Bool
  key_up : Bool
  key_down : Bool

/-- One robot's slice of the frame loop from the motor-control point (line
1886) through Step 1 (line 1901): no motor resolution exists in the code, so
the step is literally just `drivetrain_update` — the inputs are never
read. -/
noncomputable def frame_motor_step (F T : ℝ) (_inputs : FrameInputs) (d : Drivetrain)
    (dt : ℝ) : Drivetrain :=
  drivetrain_update F T d dt

/-- **C1.**  The claimed per-frame motor resolution does not happen: the
frame step is independent of the IPC/keyboard inputs, the drivetrain step
observes only the previously stored motor percentages (zero from
`drivetrain_init`, and nothing ever stores others — `drivetrain_set_motors`
is never called), and a resting robot whose IPC state commands full forward
with the fallback keys also pressed does not move. -/
theorem orchestrator_motor_resolution :
    (∀ (F T : ℝ) (i1 i2 : FrameInputs) (d : Drivetrain) (dt : ℝ),
      frame_motor_step F T i1 d dt = frame_motor_step F T i2 d dt) ∧
    (∀ (F T : ℝ) (i : FrameInputs) (d : Drivetrain) (dt : ℝ),
      (frame_motor_step F T i d dt).left_motor_pct = d.left_motor_pct ∧
      (frame_motor_step F T i d dt).right_motor_pct = d.right_motor_pct) ∧
    (∀ (F T dt : ℝ),
      (frame_motor_step F T ⟨100, 100, true, false, true, false⟩ drivetrain_init dt).pos_x =
        drivetrain_init.pos_x ∧
      (frame_motor_step F T ⟨100, 100, true, false, true, false⟩ drivetrain_init dt).pos_z =
        drivetrain_init.pos_z ∧
      (frame_motor_step F T ⟨100, 100, true, false, true, false⟩ drivetrain_init dt).heading =
        drivetrain_init.heading) := by
  have hml : left_motor_force drivetrain_init = 0 := by
    simp [left_motor_force, drivetrain_init, drivetrain_init_config]
  have hmr : right_motor_force drivetrain_init = 0 := by
    simp [right_motor_force, drivetrain_init, drivetrain_init_config]
  have hal : left_actual_force drivetrain_init = 0 := by
    rw [left_actual_force, hml, if_neg]
    simp only [abs_zero, not_lt]
    norm_num [max_friction, drivetrain_init, drivetrain_init_config, DEFAULT_CONFIG]
  have har : right_actual_force drivetrain_init = 0 := by
    rw [right_actual_force, hmr, if_neg]
    simp only [abs_zero, not_lt]
    norm_num [max_friction, drivetrain_init, drivetrain_init_config, DEFAULT_CONFIG]
  have hstate : drivetrain_init.vel_x = 0 ∧ drivetrain_init.vel_z = 0 ∧
      drivetrain_init.angular_vel = 0 ∧ drivetrain_init.ext_force_x = 0 ∧
      drivetrain_init.ext_force_z = 0 ∧ drivetrain_init.ext_torque = 0 ∧
      drivetrain_init.heading = 0 ∧ drivetrain_init.pos_x = 0 ∧
      drivetrain_init.pos_z = 0 := ⟨rfl, rfl, rfl, rfl, rfl, rfl, rfl, rfl, rfl⟩
  obtain ⟨e1, e2, e3, e4, e5, e6, e7, e8, e9⟩ := hstate
  refine ⟨fun F T i1 i2 d dt => rfl, fun F T i d dt => ⟨rfl, rfl⟩, fun F T dt => ?_⟩
  refine ⟨?_, ?_, ?_⟩
  · simp only [frame_motor_step, drivetrain_update, hal, har, e1, e2, e3, e4, e5, e6,
      e7, e8, Real.cos_zero, Real.sin_zero]
    norm_num [ite_self]
  · simp only [frame_motor_step, drivetrain_update, hal, har, e1, e2, e3, e4, e5, e6,
      e7, e9, Real.cos_zero, Real.sin_zero]
    norm_num [ite_self]
  · simp only [frame_motor_step, drivetrain_update, hal, har, e1, e2, e3, e4, e5, e6,
      e7, Real.cos_zero, Real.sin_zero]
    norm_num [ite_self]
    exact normalize_heading_eq_self (by norm_num [PI]) (by norm_num [PI])

/-! ## Wheel-assembly matching (`src/client/src/main.cpp` lines 1707-1734)

During scene realization each `PartInstance` starts with `wheel_index = -1`
(line 1637).  Lines 1712-1717 pick `left_wheel_idx`/`right_wheel_idx` as the
first assembly of each side (both start at `-1`), and lines 1719-1734 loop
over the wheels, comparing the part's normalized part number against every
wheel's part-number list (`strcmp == 0`, inner `break` on first hit); a hit
assigns `left_wheel_idx` or `right_wheel_idx` by the sign of the part's CAD
X position, and the outer loop breaks once the stored index is `≥ 0`. -/

structure WheelAssemblyM where
  is_left : Bool
  part_numbers : List String

/-- The first-of-each-side scan of lines 1714-1717, carrying the loop
counter and both accumulators. -/
def side_indices_aux (wheels : List WheelAssemblyM) (i li ri : Int) : Int × Int :=
  match wheels with
  | [] => (li, ri)
  | w :: rest =>
      side_indices_aux rest (i + 1)
        (if w.is_left ∧ li < 0 then i else li)
        (if ¬w.is_left ∧ ri < 0 then i else ri)

/-- `(left_wheel_idx, right_wheel_idx)` of lines 1714-1717. -/
def side_indices (wheels : List WheelAssemblyM) : Int × Int :=
  side_indices_aux wheels 0 (-1) (-1)

/-- The inner loop of lines 1723-1731: `strcmp == 0` against any listed part
number, with `break` on the first hit. -/
def part_matches_wheel (pn : String) (w : WheelAssemblyM) : Bool :=
  w.part_numbers.any (fun q => pn == q)

/-- The outer wheel loop of lines 1721-1733 acting on the part's stored
`wheel_index` (`cur`): a matching wheel stores the side index chosen by the
sign of the part's X position, and the loop breaks once the stored index is
non-negative. -/
def match_loop (li ri : Int) (px : ℚ) (pn : String) :
    List WheelAssemblyM → Int → Int
  | [], cur => cur
  | w :: rest, cur =>
      let cur' := if part_matches_wheel pn w then (if px < 0 then li else ri) else cur
      if cur' ≥ 0 then cur' else match_loop li ri px pn rest cur'

/-- The final `wheel_index` of one part after lines 1707-1734, starting from
the `-1` stored at line 1637. -/
def part_wheel_index (wheels : List WheelAssemblyM) (pn : String) (px : ℚ) : Int :=
  match_loop (side_indices wheels).1 (side_indices wheels).2 px pn wheels (-1)

theorem side_aux_fst_nonneg (wheels : List WheelAssemblyM) (i li ri : Int)
    (h : 0 ≤ li) : (side_indices_aux wheels i li ri).1 = li := by
  induction wheels generalizing i ri with
  | nil => rfl
  | cons w rest ih =>
      rw [side_indices_aux]
      rw [if_neg (by push_neg; intro _; omega)]
      exact ih _ _

theorem side_aux_snd_nonneg (wheels : List WheelAssemblyM) (i li ri : Int)
    (h : 0 ≤ ri) : (side_indices_aux wheels i li ri).2 = ri := by
  induction wheels generalizing i li with
  | nil => rfl
  | cons w rest ih =>
      rw [side_indices_aux]
      rw [if_neg (c := ¬w.is_left ∧ ri < 0) (by push_neg; intro _; omega)]
      exact ih _ _

theorem side_aux_fst_neg (wheels : List WheelAssemblyM) (i ri : Int) (hi : 0 ≤ i) :
    (side_indices_aux wheels i (-1) ri).1 =
      if wheels.any (fun w => w.is_left) then
        i + (wheels.findIdx (fun w => w.is_left) : Int)
      else -1 := by
  induction wheels generalizing i ri with
  | nil => simp [side_indices_aux]
  | cons w rest ih =>
      rw [side_indices_aux]
      by_cases hw : w.is_left = true
      · rw [if_pos ⟨hw, by norm_num⟩]
        rw [side_aux_fst_nonneg rest _ i _ hi]
        simp [List.any_cons, hw, List.findIdx_cons]
      · rw [if_neg (by simp [hw])]
        rw [ih _ _ (by omega)]
        simp only [List.any_cons, hw, Bool.false_or, List.findIdx_cons, cond_false]
        split_ifs with h
        · push_cast
          ring
        · rfl

theorem side_aux_snd_neg (wheels : List WheelAssemblyM) (i li : Int) (hi : 0 ≤ i) :
    (side_indices_aux wheels i li (-1)).2 =
      if wheels.any (fun w => !w.is_left) then
        i + (wheels.findIdx (fun w => !w.is_left) : Int)
      else -1 := by
  induction wheels generalizing i li with
  | nil => simp [side_indices_aux]
  | cons w rest ih =>
      rw [side_indices_aux]
      by_cases hw : w.is_left = true
      · rw [if_neg (c := ¬w.is_left ∧ (-1 : Int) < 0) (by simp [hw])]
        rw [ih _ _ (by omega)]
        simp only [List.any_cons, hw, Bool.not_true, Bool.false_or, List.findIdx_cons,
          cond_false]
        split_ifs with h
        · push_cast
          ring
        · rfl
      · have hw' : w.is_left = false := by
          cases hwl : w.is_left
          · rfl
          · exact absurd hwl hw
        rw [if_pos (c := ¬w.is_left ∧ (-1 : Int) < 0) ⟨by simp [hw'], by norm_num⟩]
        rw [side_aux_snd_nonneg rest _ _ i hi]
        simp [List.any_cons, hw', List.findIdx_cons]

theorem match_loop_side_stuck (li ri : Int) (px : ℚ) (pn : String)
    (wheels : List WheelAssemblyM)
    (hneg : ¬(if px < 0 then li else ri) ≥ 0) :
    match_loop li ri px pn wheels (if px < 0 then li else ri) =
      (if px < 0 then li else ri) := by
  induction wheels with
  | nil => rfl
  | cons w rest ih =>
      rw [match_loop]
      by_cases hm : part_matches_wheel pn w = true
      · rw [if_pos hm, if_neg hneg]
        exact ih
      · rw [if_neg hm, if_neg hneg]
        exact ih

theorem match_loop_from_unmatched (li ri : Int) (px : ℚ) (pn : String)
    (wheels : List WheelAssemblyM) :
    match_loop li ri px pn wheels (-1) =
      if wheels.any (part_matches_wheel pn) then
        (if px < 0 then li else ri)
      else -1 := by
  induction wheels with
  | nil => simp [match_loop]
  | cons w rest ih =>
      rw [match_loop]
      by_cases hm : part_matches_wheel pn w = true
      · rw [if_pos hm]
        by_cases hs : (if px < 0 then li else ri) ≥ 0
        · rw [if_pos hs]
          simp [List.any_cons, hm]
        · rw [if_neg hs]
          rw [match_loop_side_stuck li ri px pn rest hs]
          simp [List.any_cons, hm]
      · rw [if_neg hm]
        rw [if_neg (by norm_num)]
        rw [ih]
        simp [List.any_cons, hm]

/-- **C9.**  A part whose normalized part number appears in any wheel
assembly's part list is assigned the robot's first left-side assembly index
when its CAD X position is negative and the first right-side assembly index
otherwise — independent of which assembly listed the number — and every
other part keeps wheel index `-1`. -/
theorem wheel_part_assignment :
    (∀ (wheels : List WheelAssemblyM) (pn : String) (px : ℚ),
      part_wheel_index wheels pn px =
        if wheels.any (part_matches_wheel pn) then
          (if px < 0 then (side_indices wheels).1 else (side_indices wheels).2)
        else -1) ∧
    (∀ wheels : List WheelAssemblyM,
      (side_indices wheels).1 =
        (if wheels.any (fun w => w.is_left) then
          (wheels.findIdx (fun w => w.is_left) : Int) else -1) ∧
      (side_indices wheels).2 =
        (if wheels.any (fun w => !w.is_left) then
          (wheels.findIdx (fun w => !w.is_left) : Int) else -1)) := by
  constructor
  · intro wheels pn px
    rw [part_wheel_index, match_loop_from_unmatched]
  · intro wheels
    constructor
    · rw [side_indices, side_aux_fst_neg wheels 0 (-1) le_rfl]
      split_ifs with h
      · ring
      · rfl
    · rw [side_indices, side_aux_snd_neg wheels 0 (-1) le_rfl]
      split_ifs with h
      · ring
      · rfl

/-! ## Robot definition loader (`src/client/src/physics/robotdef.{h,cpp}`)

The YAML-like `.robotdef` parser.  A file is `Option (List String)`: `none`
models a path `fopen` cannot open, `some lines` the readable file's lines
(`fgets` with the trailing newline removed, lines 80-83).  The C numeric
primitives `atoi`/`atof` and `parse_float_array` (which uses `strtod`) are
taken as parameters; `parse_float_array` leaves its output untouched and
returns `false` when the line has no `[`, hence the `Option` result.  The
fixed C arrays (`motors[12]`, `submodels[64]`, `wheel_assemblies[8]`,
`part_numbers[4]`) are lists of that exact length with in-place writes. -/

structure RobotDefDrivetrainM where
  type : Nat
  left_drive : String
  right_drive : String
  rotation_center : Vec3 ℚ
  rotation_axis : Vec3 ℚ
  track_width : ℚ
  wheel_diameter : ℚ
  deriving DecidableEq

structure RobotDefMotorM where
  submodel : String
  port : Int
  count : Int
  deriving DecidableEq

structure RobotDefSubmodelM where
  name : String
  position : Vec3 ℚ
  rotation_axis : Vec3 ℚ
  rotation_origin : Vec3 ℚ
  rotation_limits : ℚ × ℚ
  has_kinematics : Bool
  deriving DecidableEq

structure RobotDefWheelAssemblyM where
  id : String
  world_position : Vec3 ℚ
  spin_axis : Vec3 ℚ
  outer_diameter_mm : ℚ
  part_numbers : List String
  part_count : Int
  is_left : Bool
  deriving DecidableEq

structure RobotDefM where
  version : Int
  source_file : String
  main_model : String
  drivetrain : RobotDefDrivetrainM
  motors : List RobotDefMotorM
  motor_count : Int
  submodels : List RobotDefSubmodelM
  submodel_count : Int
  wheel_assemblies : List RobotDefWheelAssemblyM
  wheel_count : Int
  total_wheels : Int
  total_motors : Int
  total_sensors : Int
  has_brain : Bool
  deriving DecidableEq

/-- `robotdef_init` (robotdef.cpp lines 53-61): `memset` to zero, then
version 1, drivetrain type `DRIVETRAIN_UNKNOWN` (0), rotation axis
`[0,1,0]`. -/
def robotdef_init : RobotDefM :=
  { version := 1
    source_file := ""
    main_model := ""
    drivetrain := { type := 0
                    left_drive := ""
                    right_drive := ""
                    rotation_center := ⟨0, 0, 0⟩
                    rotation_axis := ⟨0, 1, 0⟩
                    track_width := 0
                    wheel_diameter := 0 }
    motors := List.replicate 12 { submodel := "", port := 0, count := 0 }
    motor_count := 0
    submodels := List.replicate 64 { name := ""
                                     position := ⟨0, 0, 0⟩
                                     rotation_axis := ⟨0, 0, 0⟩
                                     rotation_origin := ⟨0, 0, 0⟩
                                     rotation_limits := (0, 0)
                                     has_kinematics := false }
    submodel_count := 0
    wheel_assemblies := List.replicate 8 { id := ""
                                           world_position := ⟨0, 0, 0⟩
                                           spin_axis := ⟨0, 0, 0⟩
                                           outer_diameter_mm := 0
                                           part_numbers := List.replicate 4 ""
                                           part_count := 0
                                           is_left := false }
    wheel_count := 0
    total_wheels := 0
    total_motors := 0
    total_sensors := 0
    has_brain := false }

/-- The parser-state enum of robotdef.cpp line 74. -/
inductive RSection
  | NONE | SUMMARY | DRIVETRAIN | MOTORS | SUBMODELS | WHEEL_ASSEMBLIES
  deriving DecidableEq

/-- The loop-local state of robotdef.cpp lines 74-78 plus the output. -/
structure LoaderState where
  rd : RobotDefM
  sec : RSection
  current_motor : Int
  current_submodel : Int
  current_wheel : Int
  in_wheel_parts : Bool

/-- `isspace` of the C locale: the six ASCII whitespace characters. -/
def c_isspace (c : Char) : Bool :=
  c = ' ' || c = '\t' || c = '\n' || c = '\x0b' || c = '\x0c' || c = '\r'

/-- `trim` (robotdef.cpp lines 14-23): drop leading and trailing
whitespace.  Written on the character list so it evaluates by reduction. -/
def ctrim (s : String) : String :=
  { data := ((s.data.dropWhile c_isspace).reverse.dropWhile c_isspace).reverse }

/-- `starts_with` (robotdef.cpp lines 41-44): `strncmp(line, key, strlen
key) == 0`. -/
def cstarts (s k : String) : Bool := k.data.isPrefixOf s.data

/-- `strncpy` to at most `n` characters. -/
def stake (s : String) (n : Nat) : String := { data := s.data.take n }

/-- The indent count of lines 90-91: leading spaces of the raw line. -/
def indent_of (line : String) : Nat := (line.data.takeWhile (fun c => c = ' ')).length

/-- The `strchr(line, ':')` step of `get_value`: the text after the first
colon, or `none` when there is no colon. -/
def after_colon : List Char → Option (List Char)
  | [] => none
  | c :: rest => if c = ':' then some rest else after_colon rest

/-- `get_value` (robotdef.cpp lines 47-51): `NULL` when the line has no
colon, else the trimmed text after the first colon. -/
def get_value (line : String) : Option String :=
  (after_colon line.data).map (fun cs => ctrim { data := cs })

/-- `get_value` as the C callers use it (a match guarantees the colon). -/
def gval (line : String) : String := (get_value line).getD ""

/-- The scan loop of `strstr`. -/
def has_sub (sub : List Char) : List Char → Bool
  | [] => sub.isPrefixOf []
  | c :: rest => sub.isPrefixOf (c :: rest) || has_sub sub rest

/-- `strstr(s, sub) != NULL`. -/
def contains_sub (s sub : String) : Bool := has_sub sub.data s.data

/-- The `c##` composite-suffix strip of robotdef.cpp lines 240-247. -/
def strip_c_suffix (s : String) : String :=
  let cs := s.data
  let n := cs.length
  if n > 3 ∧ (cs.get? (n - 3)).getD ' ' = 'c' ∧
      ((cs.get? (n - 2)).getD ' ').isDigit ∧ ((cs.get? (n - 1)).getD ' ').isDigit then
    { data := cs.take (n - 3) }
  else s

/-- The name extraction of lines 184-188 / 213-217: `strncpy` to 127 chars,
then cut at the first colon. -/
def name_before_colon (t : String) : String :=
  { data := (t.data.take 127).takeWhile (fun c => c ≠ ':') }

/-- In-place array write `l[i] := f l[i]` (no-op out of range, as the C
index guards ensure). -/
def list_modify {α : Type} (l : List α) (i : Nat) (f : α → α) : List α :=
  match l, i with
  | [], _ => []
  | a :: rest, 0 => f a :: rest
  | a :: rest, n + 1 => a :: list_modify rest n f

def upd_rd (st : LoaderState) (f : RobotDefM → RobotDefM) : LoaderState :=
  { st with rd := f st.rd }

/-- One iteration of the `while (fgets(...))` body (robotdef.cpp lines
80-258).  `p3`/`p2` are `parse_float_array` with count 3 and 2, `ai`/`af`
are `atoi`/`atof`. -/
def process_line (p3 : String → Option (ℚ × ℚ × ℚ)) (p2 : String → Option (ℚ × ℚ))
    (ai : String → Int) (af : String → ℚ) (st : LoaderState) (line : String) :
    LoaderState :=
  let t := ctrim line
  if t = "" ∨ t.data.headD ' ' = '#' then st
  else
    let indent := indent_of line
    if indent = 0 then
      if cstarts t "version:" then
        upd_rd st (fun r => { r with version := ai (gval t) })
      else if cstarts t "source_file:" then
        upd_rd st (fun r => { r with source_file := stake (gval t) 127 })
      else if cstarts t "main_model:" then
        upd_rd st (fun r => { r with main_model := stake (gval t) 127 })
      else if cstarts t "summary:" then { st with sec := RSection.SUMMARY }
      else if cstarts t "drivetrain:" then { st with sec := RSection.DRIVETRAIN }
      else if cstarts t "motors:" then
        { st with sec := RSection.MOTORS, current_motor := -1 }
      else if cstarts t "submodels:" then
        { st with sec := RSection.SUBMODELS, current_submodel := -1 }
      else if cstarts t "wheel_assemblies:" then
        { st with sec := RSection.WHEEL_ASSEMBLIES
                  current_wheel := -1
                  in_wheel_parts := false }
      else st
    else
      match st.sec with
      | RSection.NONE => st
      | RSection.SUMMARY =>
          if cstarts t "total_wheels:" then
            upd_rd st (fun r => { r with total_wheels := ai (gval t) })
          else if cstarts t "total_motors:" then
            upd_rd st (fun r => { r with total_motors := ai (gval t) })
          else if cstarts t "total_sensors:" then
            upd_rd st (fun r => { r with total_sensors := ai (gval t) })
          else if cstarts t "has_brain:" then
            upd_rd st (fun r => { r with has_brain := gval t == "true" })
          else st
      | RSection.DRIVETRAIN =>
          if cstarts t "type:" then
            let val := gval t
            if cstarts val "tank" then
              upd_rd st (fun r => { r with drivetrain.type := 1 })
            else if cstarts val "mecanum" then
              upd_rd st (fun r => { r with drivetrain.type := 2 })
            else if cstarts val "omni" then
              upd_rd st (fun r => { r with drivetrain.type := 3 })
            else if cstarts val "ackermann" then
              upd_rd st (fun r => { r with drivetrain.type := 4 })
            else st
          else if cstarts t "left_drive:" then
            upd_rd st (fun r => { r with drivetrain.left_drive := stake (gval t) 127 })
          else if cstarts t "right_drive:" then
            upd_rd st (fun r => { r with drivetrain.right_drive := stake (gval t) 127 })
          else if cstarts t "rotation_center:" then
            match p3 t with
            | some v => upd_rd st (fun r =>
                { r with drivetrain.rotation_center := ⟨v.1, v.2.1, v.2.2⟩ })
            | none => st
          else if cstarts t "rotation_axis:" then
            match p3 t with
            | some v => upd_rd st (fun r =>
                { r with drivetrain.rotation_axis := ⟨v.1, v.2.1, v.2.2⟩ })
            | none => st
          else if cstarts t "track_width:" then
            upd_rd st (fun r => { r with drivetrain.track_width := af (gval t) })
          else if cstarts t "wheel_diameter:" then
            upd_rd st (fun r => { r with drivetrain.wheel_diameter := af (gval t) })
          else st
      | RSection.MOTORS =>
          if cstarts t "- submodel:" then
            let cm := st.current_motor + 1
            if cm < 12 then
              { st with
                current_motor := cm
                rd := { st.rd with
                        motor_count := cm + 1
                        motors := list_modify st.rd.motors cm.toNat
                          (fun m => { m with submodel := stake (gval t) 127 }) } }
            else { st with current_motor := cm }
          else if 0 ≤ st.current_motor ∧ st.current_motor < 12 then
            if cstarts t "port:" then
              let val := gval t
              upd_rd st (fun r =>
                { r with
                  motors := list_modify r.motors st.current_motor.toNat
                    (fun m => { m with port := if val == "null" then 0 else ai val }) })
            else if cstarts t "count:" then
              upd_rd st (fun r =>
                { r with
                  motors := list_modify r.motors st.current_motor.toNat
                    (fun m => { m with count := ai (gval t) }) })
            else st
          else st
      | RSection.SUBMODELS =>
          if indent = 2 ∧ t.data.contains ':' ∧ contains_sub t ".ldr:" then
            let cs := st.current_submodel + 1
            if cs < 64 then
              { st with
                current_submodel := cs
                rd := { st.rd with
                        submodel_count := cs + 1
                        submodels := list_modify st.rd.submodels cs.toNat
                          (fun s => { s with name := name_before_colon t }) } }
            else { st with current_submodel := cs }
          else if 0 ≤ st.current_submodel ∧ st.current_submodel < 64 then
            if cstarts t "position:" then
              match p3 t with
              | some v => upd_rd st (fun r =>
                  { r with
                    submodels := list_modify r.submodels st.current_submodel.toNat
                      (fun s => { s with position := ⟨v.1, v.2.1, v.2.2⟩ }) })
              | none => st
            else if cstarts t "rotation_axis:" then
              match p3 t with
              | some v => upd_rd st (fun r =>
                  { r with
                    submodels := list_modify r.submodels st.current_submodel.toNat
                      (fun s => { s with
                                  rotation_axis := ⟨v.1, v.2.1, v.2.2⟩
                                  has_kinematics := true }) })
              | none => upd_rd st (fun r =>
                  { r with
                    submodels := list_modify r.submodels st.current_submodel.toNat
                      (fun s => { s with has_kinematics := true }) })
            else if cstarts t "rotation_origin:" then
              match p3 t with
              | some v => upd_rd st (fun r =>
                  { r with
                    submodels := list_modify r.submodels st.current_submodel.toNat
                      (fun s => { s with rotation_origin := ⟨v.1, v.2.1, v.2.2⟩ }) })
              | none => st
            else if cstarts t "rotation_limits:" then
              match p2 t with
              | some v => upd_rd st (fun r =>
                  { r with
                    submodels := list_modify r.submodels st.current_submodel.toNat
                      (fun s => { s with rotation_limits := v }) })
              | none => st
            else st
          else st
      | RSection.WHEEL_ASSEMBLIES =>
          if indent = 2 ∧ t.data.contains ':' ∧ ¬cstarts t "- " then
            let cw := st.current_wheel + 1
            if cw < 8 then
              { st with
                current_wheel := cw
                in_wheel_parts := false
                rd := { st.rd with
                        wheel_count := cw + 1
                        wheel_assemblies := list_modify st.rd.wheel_assemblies
                          cw.toNat (fun w =>
                            { w with
                              id := name_before_colon t
                              is_left := contains_sub (name_before_colon t) "left" }) } }
            else { st with current_wheel := cw, in_wheel_parts := false }
          else if 0 ≤ st.current_wheel ∧ st.current_wheel < 8 then
            if indent = 4 then
              if cstarts t "world_position:" then
                match p3 t with
                | some v => upd_rd st (fun r =>
                    { r with
                      wheel_assemblies := list_modify r.wheel_assemblies
                        st.current_wheel.toNat
                        (fun w => { w with world_position := ⟨v.1, v.2.1, v.2.2⟩ }) })
                | none => st
              else if cstarts t "spin_axis:" then
                match p3 t with
                | some v => upd_rd st (fun r =>
                    { r with
                      wheel_assemblies := list_modify r.wheel_assemblies
                        st.current_wheel.toNat
                        (fun w => { w with spin_axis := ⟨v.1, v.2.1, v.2.2⟩ }) })
                | none => st
              else if cstarts t "outer_diameter_mm:" then
                upd_rd st (fun r =>
                  { r with
                    wheel_assemblies := list_modify r.wheel_assemblies
                      st.current_wheel.toNat
                      (fun w => { w with outer_diameter_mm := af (gval t) }) })
              else if cstarts t "parts:" then { st with in_wheel_parts := true }
              else st
            else if indent = 6 ∧ st.in_wheel_parts then
              if cstarts t "- part:" then
                upd_rd st (fun r =>
                  { r with
                    wheel_assemblies := list_modify r.wheel_assemblies
                      st.current_wheel.toNat
                      (fun w =>
                        if w.part_count < 4 then
                          { w with
                            part_numbers := list_modify w.part_numbers
                              w.part_count.toNat
                              (fun _ => strip_c_suffix (stake (gval t) 31))
                            part_count := w.part_count + 1 }
                        else w) })
              else st
            else st
          else st

/-- The loop-state initialisation of robotdef.cpp lines 70-78. -/
def loader_init : LoaderState :=
  { rd := robotdef_init, sec := RSection.NONE, current_motor := -1,
    current_submodel := -1, current_wheel := -1, in_wheel_parts := false }

/-- `robotdef_load` (robotdef.cpp lines 63-262): `false` with `def`
untouched when the file cannot be opened; otherwise re-initialise, fold the
parser over the lines, and return `true` unconditionally. -/
def robotdef_load (p3 : String → Option (ℚ × ℚ × ℚ)) (p2 : String → Option (ℚ × ℚ))
    (ai : String → Int) (af : String → ℚ) (file : Option (List String))
    (d : RobotDefM) : Bool × RobotDefM :=
  match file with
  | none => (false, d)
  | some lines => (true, (lines.foldl (process_line p3 p2 ai af) loader_init).rd)

/-- The eight top-level keys of robotdef.cpp lines 95-115. -/
def top_keys : List String :=
  ["version:", "source_file:", "main_model:", "summary:", "drivetrain:",
   "motors:", "submodels:", "wheel_assemblies:"]

/-- A line the parser's loop body leaves the state unchanged on, while no
section has been entered: blank, comment, indented (harmless under
`SECTION_NONE`), or at top level matching none of the eight keys. -/
def line_is_inert (l : String) : Prop :=
  ctrim l = "" ∨ (ctrim l).data.headD ' ' = '#' ∨ indent_of l ≠ 0 ∨
  (∀ k ∈ top_keys, cstarts (ctrim l) k = false)

instance (l : String) : Decidable (line_is_inert l) := by
  unfold line_is_inert
  infer_instance

theorem process_line_inert (p3 : String → Option (ℚ × ℚ × ℚ))
    (p2 : String → Option (ℚ × ℚ)) (ai : String → Int) (af : String → ℚ)
    (st : LoaderState) (hsec : st.sec = RSection.NONE) (l : String)
    (h : line_is_inert l) : process_line p3 p2 ai af st l = st := by
  simp only [process_line]
  rcases h with h1 | h1 | h1 | h1
  · rw [if_pos (Or.inl h1)]
  · rw [if_pos (Or.inr h1)]
  · by_cases hb : ctrim l = "" ∨ (ctrim l).data.headD ' ' = '#'
    · rw [if_pos hb]
    · rw [if_neg hb, if_neg h1, hsec]
  · by_cases hb : ctrim l = "" ∨ (ctrim l).data.headD ' ' = '#'
    · rw [if_pos hb]
    · rw [if_neg hb]
      by_cases hz : indent_of l = 0
      · rw [if_pos hz,
          if_neg (by rw [h1 "version:" (by simp [top_keys])]; simp),
          if_neg (by rw [h1 "source_file:" (by simp [top_keys])]; simp),
          if_neg (by rw [h1 "main_model:" (by simp [top_keys])]; simp),
          if_neg (by rw [h1 "summary:" (by simp [top_keys])]; simp),
          if_neg (by rw [h1 "drivetrain:" (by simp [top_keys])]; simp),
          if_neg (by rw [h1 "motors:" (by simp [top_keys])]; simp),
          if_neg (by rw [h1 "submodels:" (by simp [top_keys])]; simp),
          if_neg (by rw [h1 "wheel_assemblies:" (by simp [top_keys])]; simp)]
      · rw [if_neg hz, hsec]

theorem foldl_process_inert (p3 : String → Option (ℚ × ℚ × ℚ))
    (p2 : String → Option (ℚ × ℚ)) (ai : String → Int) (af : String → ℚ)
    (lines : List String) :
    (∀ l ∈ lines, line_is_inert l) → ∀ st : LoaderState,
      st.sec = RSection.NONE → lines.foldl (process_line p3 p2 ai af) st = st := by
  induction lines with
  | nil => intro _ st _; rfl
  | cons a rest ih =>
      intro h st hs
      rw [List.foldl_cons,
        process_line_inert p3 p2 ai af st hs a (h a (List.mem_cons_self a rest))]
      exact ih (fun l hl => h l (List.mem_cons_of_mem a hl)) st hs

/-- **C10.**  `robotdef_load` fails (leaving the output untouched) exactly
when the file cannot be opened; for every readable file it returns `true` —
and when the file is empty, or no line enters a section or matches a
top-level key, the output is exactly `robotdef_init`'s defaults: version 1,
drivetrain type unknown (0), rotation axis `[0,1,0]`, rotation center
`[0,0,0]`, and zero motors, submodels and wheel assemblies. -/
theorem robotdef_load_total :
    (∀ (p3 : String → Option (ℚ × ℚ × ℚ)) (p2 : String → Option (ℚ × ℚ))
        (ai : String → Int) (af : String → ℚ),
      (∀ d : RobotDefM, robotdef_load p3 p2 ai af none d = (false, d)) ∧
      (∀ (lines : List String) (d : RobotDefM),
        (robotdef_load p3 p2 ai af (some lines) d).1 = true) ∧
      (∀ d : RobotDefM, (robotdef_load p3 p2 ai af (some []) d).2 = robotdef_init) ∧
      (∀ (lines : List String) (d : RobotDefM), (∀ l ∈ lines, line_is_inert l) →
        (robotdef_load p3 p2 ai af (some lines) d).2 = robotdef_init)) ∧
    (robotdef_init.version = 1 ∧ robotdef_init.drivetrain.type = 0 ∧
      robotdef_init.drivetrain.rotation_axis = ⟨0, 1, 0⟩ ∧
      robotdef_init.drivetrain.rotation_center = ⟨0, 0, 0⟩ ∧
      robotdef_init.motor_count = 0 ∧ robotdef_init.submodel_count = 0 ∧
      robotdef_init.wheel_count = 0) := by
  refine ⟨fun p3 p2 ai af =>
    ⟨fun d => rfl, fun lines d => rfl, fun d => rfl, fun lines d h => ?_⟩,
    rfl, rfl, rfl, rfl, rfl, rfl, rfl⟩
  show (lines.foldl (process_line p3 p2 ai af) loader_init).rd = robotdef_init
  rw [foldl_process_inert p3 p2 ai af lines h loader_init rfl]
  rfl

theorem robotdef_load_total_witness :
    (∀ l ∈ ["# vex iq robot", "stray: 1", "  indented: 2"], line_is_inert l) ∧
    robotdef_load (fun _ => none) (fun _ => none) (fun _ => 0) (fun _ => 0)
        (some ["# vex iq robot", "stray: 1", "  indented: 2"])
        { robotdef_init with version := 99 } =
      (true, robotdef_init) ∧
    robotdef_load (fun _ => none) (fun _ => none) (fun _ => 0) (fun _ => 0)
        none { robotdef_init with version := 99 } =
      (false, { robotdef_init with version := 99 }) := by
  have h : ∀ l ∈ ["# vex iq robot", "stray: 1", "  indented: 2"], line_is_inert l := by
    decide
  have hall := robotdef_load_total.1 (fun _ => none) (fun _ => none)
    (fun _ => 0) (fun _ => 0)
  refine ⟨h, ?_, hall.1 { robotdef_init with version := 99 }⟩
  exact Prod.ext
    (hall.2.1 ["# vex iq robot", "stray: 1", "  indented: 2"]
      { robotdef_init with version := 99 })
    (hall.2.2.2 ["# vex iq robot", "stray: 1", "  indented: 2"]
      { robotdef_init with version := 99 } h)

end VexSim
